import Mathlib

/-!
Verification of the RT-LAMP primer design core
(`rt_lamp_app/design/utils.py` and `rt_lamp_app/design/primer_design.py`).

Conventions of the embedding:
* Python strings of nucleotides are `List Char`; Python `str.upper` is
  `Char.toUpper` mapped over the list.
* Python floats are modelled exactly as rationals `ℚ`; the scored quantities
  are sums, differences, squares and divisions by constants, so the algebraic
  identities claimed by the specification are arithmetic-model independent.
* Python exceptions are the error side of `Except PyErr`; a `try/except`
  boundary in the source becomes a `match` on the `Except` value.
* Python `range(a, b)` (with a non-negative lower bound, the only form the
  source uses) is `pyRange`, and `s[a:b]` (with non-negative bounds) is
  `pySlice`, both with Python's clipping semantics.
-/

/-- Exceptions that the embedded code can raise.  `valueError` stands for
Python `ValueError`, `typeError` for `TypeError`; `geometricConstraint` and
`insufficientCandidates` carry the payloads of the corresponding classes of
`rt_lamp_app/design/exceptions.py`. -/
inductive PyErr where
  | valueError : PyErr
  | typeError : PyErr
  | geometricConstraint (constraint_type expected actual : String) : PyErr
  | insufficientCandidates (primer_type : String) (found required : ℕ) : PyErr
  | otherError : PyErr
deriving DecidableEq

deriving instance DecidableEq for Except

/-- Python `range(a, b)` for a natural lower bound and an integer upper bound
(the source only ever iterates upwards from a non-negative start; a negative
or too-small upper bound yields the empty range exactly as in Python). -/
def pyRange (a : ℕ) (b : ℤ) : List ℕ :=
  List.range' a (b - (a : ℤ)).toNat

/-- Python slice `l[a:b]` for non-negative bounds, with Python's clipping. -/
def pySlice {α : Type} (l : List α) (a b : ℕ) : List α :=
  (l.drop a).take (b - a)

/-- Whether `p` is an initial segment of `l` (helper for substring search). -/
def leadsWith : List Char → List Char → Bool
  | [], _ => true
  | _ :: _, [] => false
  | a :: as, b :: bs => a == b && leadsWith as bs

/-- Python substring containment `p in l` on character lists. -/
def occursIn (p : List Char) : List Char → Bool
  | [] => leadsWith p []
  | l@(_ :: rest) => leadsWith p l || occursIn p rest

/-- The `complement_map` dictionary of `utils.reverse_complement`. -/
def complement_pairs : List (Char × Char) :=
  [('A', 'T'), ('T', 'A'), ('C', 'G'), ('G', 'C'),
   ('R', 'Y'), ('Y', 'R'), ('K', 'M'), ('M', 'K'),
   ('S', 'S'), ('W', 'W'), ('B', 'V'), ('D', 'H'),
   ('H', 'D'), ('V', 'B'), ('N', 'N')]

/-- Dictionary lookup in `complement_map`; `none` models the `KeyError`. -/
def complement_map (c : Char) : Option Char :=
  (complement_pairs.find? (fun p => p.1 == c)).map (fun p => p.2)

/-- The generator `complement_map[base.upper()] for base in sequence` of
`utils.reverse_complement`: left to right, failing at the first invalid
base (the `KeyError` is re-raised as `ValueError`). -/
def map_complement : List Char → Except PyErr (List Char)
  | [] => .ok []
  | b :: rest =>
    match complement_map b.toUpper with
    | some c =>
      match map_complement rest with
      | .ok cs => .ok (c :: cs)
      | .error e => .error e
    | none => .error .valueError

/-- `utils.reverse_complement`: complement every base, then reverse. -/
def reverse_complement (l : List Char) : Except PyErr (List Char) :=
  match map_complement l with
  | .ok cs => .ok cs.reverse
  | .error e => .error e

/-- `utils.calculate_gc_content`: 0.0 on the empty string, otherwise the
percentage of G and C characters after upper-casing. -/
def calculate_gc_content (l : List Char) : ℚ :=
  if l.isEmpty then 0
  else
    let up := l.map Char.toUpper
    (((up.count 'G' + up.count 'C' : ℕ) : ℚ) / (l.length : ℚ)) * 100

/-- `utils.has_excessive_repeats`: some base of `ATGC` repeated
`max_repeat + 1` times consecutively in the upper-cased sequence. -/
def has_excessive_repeats (l : List Char) (max_repeat : ℕ) : Bool :=
  ['A', 'T', 'G', 'C'].any
    (fun b => occursIn (List.replicate (max_repeat + 1) b) (l.map Char.toUpper))

/-- The dinucleotide-repeat scan of `utils.validate_sequence_composition`
(eight consecutive copies of one of AT, TA, GC, CG). -/
def has_dinucleotide_repeats (l : List Char) : Bool :=
  [['A', 'T'], ['T', 'A'], ['G', 'C'], ['C', 'G']].any
    (fun d =>
      occursIn (d ++ d ++ d ++ d) (l.map Char.toUpper))

/-- Inner loop (over `j`) of `utils.has_strong_secondary_structure`. -/
def hairpin_scan_inner (l : List Char) (max_hairpin_dg : ℚ) (i : ℕ) :
    List ℕ → Except PyErr Bool
  | [] => .ok false
  | j :: js =>
    let stem_len := min 4 (min (l.length - j) (i + 1))
    if stem_len < 3 then hairpin_scan_inner l max_hairpin_dg i js
    else
      let left := pySlice l (i + 1 - stem_len) (i + 1)
      let right := pySlice l j (j + stem_len)
      match reverse_complement right with
      | .error e => .error e
      | .ok rc_right =>
        if left = rc_right ∧ ((-3 / 2 : ℚ) * stem_len + 4 < max_hairpin_dg) then
          .ok true
        else hairpin_scan_inner l max_hairpin_dg i js

/-- Outer loop (over `i`) of `utils.has_strong_secondary_structure`. -/
def hairpin_scan_outer (l : List Char) (max_hairpin_dg : ℚ) :
    List ℕ → Except PyErr Bool
  | [] => .ok false
  | i :: rest =>
    match hairpin_scan_inner l max_hairpin_dg i
        (pyRange (i + 4) (min ((i : ℤ) + 15) (l.length : ℤ))) with
    | .error e => .error e
    | .ok true => .ok true
    | .ok false => hairpin_scan_outer l max_hairpin_dg rest

/-- `utils.has_strong_secondary_structure`: palindrome scan for hairpins;
the reverse complement of an arm can raise on an invalid base. -/
def has_strong_secondary_structure (l : List Char) (max_hairpin_dg : ℚ) :
    Except PyErr Bool :=
  hairpin_scan_outer l max_hairpin_dg (pyRange 0 ((l.length : ℤ) - 6))

/-- The two issue strings that `utils.validate_sequence_composition` can put
into its returned issue list (their exact text is irrelevant to the claims,
so they are modelled as tags). -/
inductive CompositionIssue where
  | strongSecondaryStructure : CompositionIssue
  | strongThreePrimeEnd : CompositionIssue
deriving DecidableEq

/-- The 3-prime-end scan of `utils.validate_sequence_composition`: last
character literally `G` or `C` (no upper-casing in the source here). -/
def three_prime_gc (l : List Char) : Bool :=
  match l.getLast? with
  | some c => c == 'G' || c == 'C'
  | none => false

/-- `utils.validate_sequence_composition`.  Parameter checks, the GC band,
the optional repeat scans and the homopolymer scan all raise `ValueError`;
only the secondary-structure and 3-prime checks accumulate issues that are
returned as `(is_valid, issues)`. -/
def validate_sequence_composition (l : List Char) (min_gc max_gc : ℚ)
    (max_homopolymer : ℕ) (check_repeats check_dinuc_repeats : Bool) :
    Except PyErr (Bool × List CompositionIssue) :=
  if min_gc < 0 ∨ max_gc > 100 ∨ min_gc > max_gc then .error .valueError
  else if max_homopolymer = 0 then .error .valueError
  else
    let gc_content := calculate_gc_content l
    if gc_content < min_gc ∨ gc_content > max_gc then .error .valueError
    else if check_repeats && has_excessive_repeats l max_homopolymer then
      .error .valueError
    else if check_dinuc_repeats && has_dinucleotide_repeats l then
      .error .valueError
    else if has_excessive_repeats l max_homopolymer then .error .valueError
    else
      match has_strong_secondary_structure l (-3) with
      | .error e => .error e
      | .ok strong =>
        let issues :=
          (if strong then [CompositionIssue.strongSecondaryStructure] else []) ++
          (if three_prime_gc l then [CompositionIssue.strongThreePrimeEnd] else [])
        .ok (issues.isEmpty, issues)

/-- The simplified, eight-parameter `utils.validate_primer_geometry`
("simplified version for tests"): pairwise overlap checks plus a lower bound
on the outer amplicon.  This is the function that
`PrimerDesigner._validate_primer_set_geometry` names in its call. -/
def validate_primer_geometry (f3_start f3_end b3_start b3_end
    fip_start fip_end bip_start bip_end : ℤ) : Except PyErr Unit :=
  if fip_start ≤ f3_end then
    .error (.geometricConstraint "F3_FIP_overlap" "no overlap"
      ("F3 ends at " ++ toString f3_end ++ ", FIP starts at " ++ toString fip_start))
  else if bip_start ≤ fip_end then
    .error (.geometricConstraint "FIP_BIP_overlap" "no overlap"
      ("FIP ends at " ++ toString fip_end ++ ", BIP starts at " ++ toString bip_start))
  else if b3_start ≤ bip_end then
    .error (.geometricConstraint "BIP_B3_overlap" "no overlap"
      ("BIP ends at " ++ toString bip_end ++ ", B3 starts at " ++ toString b3_start))
  else if b3_start - f3_end < 120 then
    .error (.geometricConstraint "amplicon_size" ">=120" (toString (b3_start - f3_end)))
  else
    let _ := f3_start
    let _ := b3_end
    let _ := bip_start
    .ok ()

/-- The regions dictionary built by
`PrimerDesigner._validate_primer_set_geometry` and consumed by
`utils.validate_primer_geometry_full`. -/
structure Regions where
  F3 : Option (ℤ × ℤ)
  B3 : Option (ℤ × ℤ)
  F2 : Option (ℤ × ℤ)
  B2 : Option (ℤ × ℤ)
  F1c : Option (ℤ × ℤ)
  B1c : Option (ℤ × ℤ)
deriving DecidableEq

/-- The geometric constraint dictionary.  `PrimerDesigner.DEFAULT_CONSTRAINTS`
supplies every key, and custom constraints are merged over the defaults, so
a total record is faithful to every reachable configuration. -/
structure Constraints where
  F3_length_min : ℕ
  F3_length_max : ℕ
  B3_length_min : ℕ
  B3_length_max : ℕ
  FIP_length_min : ℕ
  FIP_length_max : ℕ
  BIP_length_min : ℕ
  BIP_length_max : ℕ
  F1c_length_min : ℕ
  F1c_length_max : ℕ
  B1c_length_min : ℕ
  B1c_length_max : ℕ
  F2_length_min : ℕ
  F2_length_max : ℕ
  B2_length_min : ℕ
  B2_length_max : ℕ
  F2_B2_amplicon_min : ℕ
  F2_B2_amplicon_max : ℕ
  F3_F2_spacing_min : ℕ
  F3_F2_spacing_max : ℕ
  B3_B2_spacing_min : ℕ
  B3_B2_spacing_max : ℕ
  LF_length_min : ℕ
  LF_length_max : ℕ
  LB_length_min : ℕ
  LB_length_max : ℕ
deriving DecidableEq

/-- `PrimerDesigner.DEFAULT_CONSTRAINTS`. -/
def DEFAULT_CONSTRAINTS : Constraints :=
  { F3_length_min := 15, F3_length_max := 25,
    B3_length_min := 15, B3_length_max := 25,
    FIP_length_min := 35, FIP_length_max := 50,
    BIP_length_min := 35, BIP_length_max := 50,
    F1c_length_min := 15, F1c_length_max := 25,
    B1c_length_min := 15, B1c_length_max := 25,
    F2_length_min := 18, F2_length_max := 25,
    B2_length_min := 18, B2_length_max := 25,
    F2_B2_amplicon_min := 120, F2_B2_amplicon_max := 200,
    F3_F2_spacing_min := 0, F3_F2_spacing_max := 20,
    B3_B2_spacing_min := 0, B3_B2_spacing_max := 20,
    LF_length_min := 15, LF_length_max := 25,
    LB_length_min := 15, LB_length_max := 25 }

/-- One length-range check of `utils.validate_primer_geometry_full`. -/
def check_length (region : Option (ℤ × ℤ)) (lo hi : ℕ) (rule : String) :
    Except PyErr Unit :=
  match region with
  | none => .ok ()
  | some r =>
    let len := r.2 - r.1 + 1
    if (lo : ℤ) ≤ len ∧ len ≤ (hi : ℤ) then .ok ()
    else .error (.geometricConstraint rule
      (toString lo ++ "-" ++ toString hi) (toString len))

/-- The composite length check (F1c+F2 or B1c+B2) of
`utils.validate_primer_geometry_full`. -/
def check_pair_length (r1 r2 : Option (ℤ × ℤ)) (lo hi : ℕ) (rule : String) :
    Except PyErr Unit :=
  match r1, r2 with
  | some a, some b =>
    let len := (a.2 - a.1 + 1) + (b.2 - b.1 + 1)
    if (lo : ℤ) ≤ len ∧ len ≤ (hi : ℤ) then .ok ()
    else .error (.geometricConstraint rule
      (toString lo ++ "-" ++ toString hi) (toString len))
  | _, _ => .ok ()

/-- `utils.validate_primer_geometry_full`: the dictionary-based validator that
checks per-role lengths and the F2-B2 amplicon size.  (This, not the
eight-parameter function, matches the call signature used by
`_validate_primer_set_geometry`, but the source never calls it.) -/
def validate_primer_geometry_full (regions : Regions) (c : Constraints) :
    Except PyErr Unit :=
  match check_length regions.F3 c.F3_length_min c.F3_length_max "F3_length" with
  | .error e => .error e
  | .ok _ =>
  match check_length regions.B3 c.B3_length_min c.B3_length_max "B3_length" with
  | .error e => .error e
  | .ok _ =>
  match check_pair_length regions.F1c regions.F2
      c.FIP_length_min c.FIP_length_max "FIP_length" with
  | .error e => .error e
  | .ok _ =>
  match check_pair_length regions.B1c regions.B2
      c.BIP_length_min c.BIP_length_max "BIP_length" with
  | .error e => .error e
  | .ok _ =>
  match regions.F2, regions.B2 with
  | some f2, some b2 =>
    let amplicon_size := b2.1 - f2.2 - 1
    if (c.F2_B2_amplicon_min : ℤ) ≤ amplicon_size ∧
        amplicon_size ≤ (c.F2_B2_amplicon_max : ℤ) then .ok ()
    else .error (.geometricConstraint "F2_B2_amplicon"
      (toString c.F2_B2_amplicon_min ++ "-" ++ toString c.F2_B2_amplicon_max)
      (toString amplicon_size))
  | _, _ => .ok ()

/-- `primer_design.PrimerType`. -/
inductive PrimerType where
  | F3 | B3 | FIP | BIP | LF | LB
deriving DecidableEq

/-- `primer_design.Primer`.  `gc_content` is always the recomputed value
(`__post_init__` recomputes it whenever the field is falsy, and
`_create_primer` passes exactly `calculate_gc_content(sequence)`).  The
`design_report`-style free-form fields are not represented; `warnings`
carries composition issue tags. -/
structure Primer where
  type : PrimerType
  sequence : List Char
  start_pos : ℤ
  end_pos : ℤ
  strand : String
  tm : ℚ
  gc_content : ℚ
  delta_g : ℚ
  score : ℚ
  f1c_sequence : Option (List Char)
  f2_sequence : Option (List Char)
  b1c_sequence : Option (List Char)
  b2_sequence : Option (List Char)
  end_stability : ℚ
  hairpin_dg : ℚ
  dimer_dg : ℚ
  warnings : List CompositionIssue
deriving DecidableEq

/-- The two set-level warnings `_score_primer_set` can attach (modelled as
tags carrying the formatted quantity). -/
inductive SetWarning where
  | largeTmRange (v : ℚ) : SetWarning
  | largeAmplicon (n : ℤ) : SetWarning
deriving DecidableEq

/-- `primer_design.LampPrimerSet` (the opaque `design_report` dictionary,
unused by the verified operations, is not represented). -/
structure LampPrimerSet where
  f3 : Primer
  b3 : Primer
  fip : Primer
  bip : Primer
  lf : Option Primer
  lb : Option Primer
  overall_score : ℚ
  tm_uniformity : ℚ
  specificity_score : ℚ
  geometric_validity : Bool
  f3_f2_distance : ℤ
  b3_b2_distance : ℤ
  f2_b2_amplicon_size : ℤ
  warnings : List SetWarning
deriving DecidableEq

/-- `LampPrimerSet.get_all_primers`. -/
def get_all_primers (ps : LampPrimerSet) : List Primer :=
  [ps.f3, ps.b3, ps.fip, ps.bip] ++
    (match ps.lf with | some p => [p] | none => []) ++
    (match ps.lb with | some p => [p] | none => [])

/-- `LampPrimerSet.get_tm_range`: `(min(tms), max(tms))`.  The list of
primers is structurally non-empty, so the default branch is unreachable. -/
def get_tm_range (ps : LampPrimerSet) : ℚ × ℚ :=
  match (get_all_primers ps).map (fun p => p.tm) with
  | [] => (0, 0)
  | t :: rest => (rest.foldl min t, rest.foldl max t)

/-- Modelled from the spec: the thermodynamic engine
(`rt_lamp_app/core/thermodynamics.py` is not under `src/`).  Section 4.1 of
the specification describes deterministic per-sequence values that can fail
on short or invalid input; the engine is therefore kept abstract, and every
theorem about the designer holds for an arbitrary instance.
`predict_hairpin` returns the ΔG values of the predicted structures,
most stable first. -/
structure ThermoCalculator where
  calculate_tm : List Char → Except PyErr ℚ
  calculate_free_energy_37c : List Char → Except PyErr ℚ
  calculate_end_stability : List Char → Except PyErr ℚ
  predict_hairpin : List Char → Except PyErr (List ℚ)

/-- Modelled from the spec: `rt_lamp_app/core/sequence_processing.Sequence`
is not under `src/`.  Section 3 of the specification: a header plus a
nucleotide string over A/T/C/G and the IUPAC ambiguity codes, validated
upstream, so every character (after upper-casing) has a complement. -/
structure Sequence where
  header : String
  seq : List Char
  valid : ∀ c ∈ seq, (complement_map c.toUpper).isSome

/-- The fixed `PrimerDesigner.OPTIMAL_RANGES` thresholds. -/
def optimal_tm_min : ℚ := 58
def optimal_tm_max : ℚ := 65
def optimal_tm : ℚ := 61.5
def optimal_gc_min : ℚ := 40
def optimal_gc_max : ℚ := 60
def optimal_gc : ℚ := 50
def end_stability_max : ℚ := -2
def hairpin_dg_max : ℚ := -3

/-- `PrimerDesigner._score_primer`: sum of the (non-positive) penalties. -/
def score_primer (p : Primer) : ℚ :=
  let tm_penalty := -((p.tm - optimal_tm) ^ 2) / 10
  let gc_penalty := -((p.gc_content - optimal_gc) ^ 2) / 100
  let hairpin_penalty := if p.hairpin_dg < hairpin_dg_max then p.hairpin_dg else 0
  let end_penalty :=
    if p.end_stability > end_stability_max then
      -|p.end_stability - end_stability_max| else 0
  tm_penalty + gc_penalty + hairpin_penalty + end_penalty

/-- `PrimerDesigner._create_primer`: queries the thermodynamic engine,
builds the primer, and scores it. -/
def create_primer (th : ThermoCalculator) (ty : PrimerType) (s : List Char)
    (start_pos end_pos : ℤ) (strand : String) : Except PyErr Primer :=
  match th.calculate_tm s with
  | .error e => .error e
  | .ok tm =>
  match th.calculate_free_energy_37c s with
  | .error e => .error e
  | .ok delta_g =>
  match th.calculate_end_stability s with
  | .error e => .error e
  | .ok end_stability =>
  match th.predict_hairpin s with
  | .error e => .error e
  | .ok hairpins =>
    let p : Primer :=
      { type := ty, sequence := s, start_pos := start_pos, end_pos := end_pos,
        strand := strand, tm := tm, gc_content := calculate_gc_content s,
        delta_g := delta_g, score := 0,
        f1c_sequence := none, f2_sequence := none,
        b1c_sequence := none, b2_sequence := none,
        end_stability := end_stability, hairpin_dg := hairpins.headD 0,
        dimer_dg := 0, warnings := [] }
    .ok { p with score := score_primer p }

/-- `PrimerDesigner._is_valid_primer`.  The composition check can raise
(propagating to the caller); the warning list appended to a rejected
candidate is unobservable because the candidate is discarded. -/
def is_valid_primer (p : Primer) : Except PyErr Bool :=
  match validate_sequence_composition p.sequence 30 70 4 false false with
  | .error e => .error e
  | .ok (comp_ok, _issues) =>
    if comp_ok = false then .ok false
    else if ¬ (optimal_tm_min ≤ p.tm ∧ p.tm ≤ optimal_tm_max) then .ok false
    else if ¬ (optimal_gc_min ≤ p.gc_content ∧ p.gc_content ≤ optimal_gc_max) then
      .ok false
    else if p.hairpin_dg < hairpin_dg_max then .ok false
    else .ok true

/-- One insertion step of a stable descending sort by key (Python
`list.sort(key=..., reverse=True)` keeps the original order of equal keys;
an element is inserted after every earlier element whose key is not
strictly smaller). -/
def insert_desc {α : Type} (key : α → ℚ) (x : α) : List α → List α
  | [] => [x]
  | y :: ys => if key y < key x then x :: y :: ys else y :: insert_desc key x ys

/-- Stable descending key sort, the model of
`candidates.sort(key=..., reverse=True)`. -/
def sort_desc {α : Type} (key : α → ℚ) (l : List α) : List α :=
  l.foldl (fun acc x => insert_desc key x acc) []

/-- The discard-and-continue collection pattern shared by every candidate
generator: `pre` is the part of the loop body outside the `try` (its error
aborts the whole generator), `step` is the `try` body (any error, or an
invalid primer, just skips the window). -/
def collect_valid {α β : Type} (pre : α → Except PyErr β)
    (step : β → Except PyErr (Primer × Bool)) :
    List α → List Primer → Except PyErr (List Primer)
  | [], acc => .ok acc
  | x :: xs, acc =>
    match pre x with
    | .error e => .error e
    | .ok y =>
      match step y with
      | .ok (p, true) => collect_valid pre step xs (acc ++ [p])
      | _ => collect_valid pre step xs acc

/-- The (length, start) windows enumerated by `_generate_f3_candidates`:
lengths `F3_length_min..F3_length_max`, starts in the first 50 bases. -/
def f3_trials (c : Constraints) (seq_len : ℕ) : List (ℕ × ℕ) :=
  (pyRange c.F3_length_min ((c.F3_length_max : ℤ) + 1)).flatMap (fun len =>
    (pyRange 0 (min 50 ((seq_len : ℤ) - (len : ℤ) + 1))).map (fun start =>
      (len, start)))

/-- The `try` body of one `_generate_f3_candidates` window. -/
def f3_step (th : ThermoCalculator) (seq : List Char) (w : ℕ × ℕ) :
    Except PyErr (Primer × Bool) :=
  match create_primer th .F3 (pySlice seq w.2 (w.2 + w.1))
      (w.2 : ℤ) ((w.2 : ℤ) + (w.1 : ℤ) - 1) "+" with
  | .error e => .error e
  | .ok p =>
    match is_valid_primer p with
    | .error e => .error e
    | .ok b => .ok (p, b)

/-- `PrimerDesigner._generate_f3_candidates`.  Nothing fallible happens
outside the per-window `try`, so the generator itself never raises. -/
def generate_f3_candidates (th : ThermoCalculator) (c : Constraints)
    (seq : List Char) : Except PyErr (List Primer) :=
  match collect_valid (fun w => .ok w) (f3_step th seq)
      (f3_trials c seq.length) [] with
  | .error e => .error e
  | .ok candidates => .ok ((sort_desc (fun p => p.score) candidates).take 50)

/-- The (length, start) windows enumerated by `_generate_b3_candidates`:
starts in the last 50 bases. -/
def b3_trials (c : Constraints) (seq_len : ℕ) : List (ℕ × ℕ) :=
  (pyRange c.B3_length_min ((c.B3_length_max : ℤ) + 1)).flatMap (fun len =>
    (pyRange (seq_len - 50) ((seq_len : ℤ) - (len : ℤ) + 1)).map (fun start =>
      (len, start)))

/-- The part of one `_generate_b3_candidates` window computed before the
`try`: the reverse complement of the windowed region.  An invalid base here
raises out of the whole generator (the source computes `primer_seq` outside
the `try` block). -/
def b3_pre (seq : List Char) (w : ℕ × ℕ) :
    Except PyErr (ℕ × ℕ × List Char) :=
  match reverse_complement (pySlice seq w.2 (w.2 + w.1)) with
  | .error e => .error e
  | .ok primer_seq => .ok (w.1, w.2, primer_seq)

/-- The `try` body of one `_generate_b3_candidates` window. -/
def b3_step (th : ThermoCalculator) (w : ℕ × ℕ × List Char) :
    Except PyErr (Primer × Bool) :=
  match create_primer th .B3 w.2.2 (w.2.1 : ℤ)
      ((w.2.1 : ℤ) + (w.1 : ℤ) - 1) "-" with
  | .error e => .error e
  | .ok p =>
    match is_valid_primer p with
    | .error e => .error e
    | .ok b => .ok (p, b)

/-- `PrimerDesigner._generate_b3_candidates`. -/
def generate_b3_candidates (th : ThermoCalculator) (c : Constraints)
    (seq : List Char) : Except PyErr (List Primer) :=
  match collect_valid (b3_pre seq) (b3_step th) (b3_trials c seq.length) [] with
  | .error e => .error e
  | .ok candidates => .ok ((sort_desc (fun p => p.score) candidates).take 50)

/-- The (F1c region, F2 region) pairs enumerated by
`_generate_fip_candidates`: F1c starts from `seq_len // 3`, F2 starts from
50 up to `f1c_start - 20` (exclusive), i.e. the loops only force the two
STARTS at least 21 apart — nothing constrains the end of the F2 window
relative to the start of the F1c window. -/
def fip_region_pairs (c : Constraints) (seq_len : ℕ) :
    List ((ℕ × ℕ) × (ℕ × ℕ)) :=
  (pyRange c.F1c_length_min ((c.F1c_length_max : ℤ) + 1)).flatMap (fun f1c_len =>
    (pyRange c.F2_length_min ((c.F2_length_max : ℤ) + 1)).flatMap (fun f2_len =>
      (pyRange (seq_len / 3) ((seq_len : ℤ) - (f1c_len : ℤ) - 50)).flatMap
        (fun f1c_start =>
          (pyRange 50 ((f1c_start : ℤ) - 20)).map (fun f2_start =>
            ((f1c_start, f1c_start + f1c_len - 1),
             (f2_start, f2_start + f2_len - 1))))))

/-- `PrimerDesigner._construct_fip_primer`:
FIP = reverse_complement(F1c part) ++ F2 part. -/
def construct_fip_primer (seq : List Char) (f1c_region f2_region : ℕ × ℕ) :
    Except PyErr (List Char) :=
  let f1c_part := pySlice seq f1c_region.1 (f1c_region.2 + 1)
  let f2_part := pySlice seq f2_region.1 (f2_region.2 + 1)
  match reverse_complement f1c_part with
  | .error e => .error e
  | .ok r => .ok (r ++ f2_part)

/-- `PrimerDesigner._construct_bip_primer`:
BIP = reverse_complement(B1c part) ++ B2 part. -/
def construct_bip_primer (seq : List Char) (b1c_region b2_region : ℕ × ℕ) :
    Except PyErr (List Char) :=
  let b1c_part := pySlice seq b1c_region.1 (b1c_region.2 + 1)
  let b2_part := pySlice seq b2_region.1 (b2_region.2 + 1)
  match reverse_complement b1c_part with
  | .error e => .error e
  | .ok r => .ok (r ++ b2_part)

/-- The `try` body of one `_generate_fip_candidates` pair: construct the
composite primer, create it (start = F2 start, end = F1c end), record the
sub-sequences, then filter. -/
def fip_step (th : ThermoCalculator) (seq : List Char)
    (pr : (ℕ × ℕ) × (ℕ × ℕ)) : Except PyErr (Primer × Bool) :=
  match construct_fip_primer seq pr.1 pr.2 with
  | .error e => .error e
  | .ok fip_seq =>
    match create_primer th .FIP fip_seq (pr.2.1 : ℤ) (pr.1.2 : ℤ) "+" with
    | .error e => .error e
    | .ok p =>
      let p := { p with
        f1c_sequence := some (pySlice seq pr.1.1 (pr.1.2 + 1)),
        f2_sequence := some (pySlice seq pr.2.1 (pr.2.2 + 1)) }
      match is_valid_primer p with
      | .error e => .error e
      | .ok b => .ok (p, b)

/-- `PrimerDesigner._generate_fip_candidates` (everything fallible is inside
the per-pair `try`). -/
def generate_fip_candidates (th : ThermoCalculator) (c : Constraints)
    (seq : List Char) : Except PyErr (List Primer) :=
  match collect_valid (fun pr => .ok pr) (fip_step th seq)
      (fip_region_pairs c seq.length) [] with
  | .error e => .error e
  | .ok candidates => .ok ((sort_desc (fun p => p.score) candidates).take 50)

/-- The (B1c region, B2 region) pairs enumerated by
`_generate_bip_candidates`: B1c starts in `[50, seq_len // 2)` and B2 starts
from `b1c_end + 20`, so here the two REGIONS really are separated by a gap
of at least 19 bases. -/
def bip_region_pairs (c : Constraints) (seq_len : ℕ) :
    List ((ℕ × ℕ) × (ℕ × ℕ)) :=
  (pyRange c.B1c_length_min ((c.B1c_length_max : ℤ) + 1)).flatMap (fun b1c_len =>
    (pyRange c.B2_length_min ((c.B2_length_max : ℤ) + 1)).flatMap (fun b2_len =>
      (pyRange 50 ((seq_len / 2 : ℕ) : ℤ)).flatMap (fun b1c_start =>
        (pyRange (b1c_start + b1c_len - 1 + 20)
            ((seq_len : ℤ) - (b2_len : ℤ) - 50)).map (fun b2_start =>
          ((b1c_start, b1c_start + b1c_len - 1),
           (b2_start, b2_start + b2_len - 1))))))

/-- The `try` body of one `_generate_bip_candidates` pair (start = B1c
start, end = B2 end, strand "-"). -/
def bip_step (th : ThermoCalculator) (seq : List Char)
    (pr : (ℕ × ℕ) × (ℕ × ℕ)) : Except PyErr (Primer × Bool) :=
  match construct_bip_primer seq pr.1 pr.2 with
  | .error e => .error e
  | .ok bip_seq =>
    match create_primer th .BIP bip_seq (pr.1.1 : ℤ) (pr.2.2 : ℤ) "-" with
    | .error e => .error e
    | .ok p =>
      let p := { p with
        b1c_sequence := some (pySlice seq pr.1.1 (pr.1.2 + 1)),
        b2_sequence := some (pySlice seq pr.2.1 (pr.2.2 + 1)) }
      match is_valid_primer p with
      | .error e => .error e
      | .ok b => .ok (p, b)

/-- `PrimerDesigner._generate_bip_candidates`. -/
def generate_bip_candidates (th : ThermoCalculator) (c : Constraints)
    (seq : List Char) : Except PyErr (List Primer) :=
  match collect_valid (fun pr => .ok pr) (bip_step th seq)
      (bip_region_pairs c seq.length) [] with
  | .error e => .error e
  | .ok candidates => .ok ((sort_desc (fun p => p.score) candidates).take 50)

/-- The (length, start) windows of `_generate_loop_candidates` for a loop
primer type (LF searches the second quarter on strand "+", LB the third
quarter on strand "-"). -/
def loop_trials (c : Constraints) (ty : PrimerType) (seq_len : ℕ) :
    List (ℕ × ℕ) :=
  let lo := if ty = .LF then c.LF_length_min else c.LB_length_min
  let hi := if ty = .LF then c.LF_length_max else c.LB_length_max
  let search_start := if ty = .LF then seq_len / 4 else seq_len / 2
  let search_end := if ty = .LF then seq_len / 2 else 3 * seq_len / 4
  (pyRange lo ((hi : ℤ) + 1)).flatMap (fun len =>
    (pyRange search_start
        (min (search_end : ℤ) ((seq_len : ℤ) - (len : ℤ) + 1))).map (fun start =>
      (len, start)))

/-- The part of one `_generate_loop_candidates` window computed before the
`try`: the primer sequence, reverse-complemented on strand "-" (LB).  As in
the B3 generator, an invalid base here raises out of the generator. -/
def loop_pre (ty : PrimerType) (seq : List Char) (w : ℕ × ℕ) :
    Except PyErr (ℕ × ℕ × List Char) :=
  if ty = .LF then .ok (w.1, w.2, pySlice seq w.2 (w.2 + w.1))
  else
    match reverse_complement (pySlice seq w.2 (w.2 + w.1)) with
    | .error e => .error e
    | .ok primer_seq => .ok (w.1, w.2, primer_seq)

/-- The `try` body of one `_generate_loop_candidates` window. -/
def loop_step (th : ThermoCalculator) (ty : PrimerType)
    (w : ℕ × ℕ × List Char) : Except PyErr (Primer × Bool) :=
  match create_primer th ty w.2.2 (w.2.1 : ℤ)
      ((w.2.1 : ℤ) + (w.1 : ℤ) - 1) (if ty = .LF then "+" else "-") with
  | .error e => .error e
  | .ok p =>
    match is_valid_primer p with
    | .error e => .error e
    | .ok b => .ok (p, b)

/-- `PrimerDesigner._generate_loop_candidates` (top 20 retained). -/
def generate_loop_candidates (th : ThermoCalculator) (c : Constraints)
    (ty : PrimerType) (seq : List Char) : Except PyErr (List Primer) :=
  match collect_valid (loop_pre ty seq) (loop_step th ty)
      (loop_trials c ty seq.length) [] with
  | .error e => .error e
  | .ok candidates => .ok ((sort_desc (fun p => p.score) candidates).take 20)

/-- Python truthiness of an optional string field (None and the empty
string are falsy). -/
def truthy_seq (o : Option (List Char)) : Bool :=
  match o with
  | some l => !l.isEmpty
  | none => false

/-- The regions dictionary assembled by
`PrimerDesigner._validate_primer_set_geometry`: F3 and B3 always; F2/F1c
from the FIP sub-sequence lengths and B1c/B2 from the BIP sub-sequence
lengths when those fields are truthy. -/
def primer_set_regions (ps : LampPrimerSet) : Regions :=
  let base : Regions :=
    { F3 := some (ps.f3.start_pos, ps.f3.end_pos),
      B3 := some (ps.b3.start_pos, ps.b3.end_pos),
      F2 := none, B2 := none, F1c := none, B1c := none }
  let withF :=
    if truthy_seq ps.fip.f2_sequence && truthy_seq ps.fip.f1c_sequence then
      let f2_len := ((ps.fip.f2_sequence.getD []).length : ℤ)
      let f1c_len := ((ps.fip.f1c_sequence.getD []).length : ℤ)
      { base with
        F2 := some (ps.fip.start_pos, ps.fip.start_pos + f2_len - 1),
        F1c := some (ps.fip.end_pos - f1c_len + 1, ps.fip.end_pos) }
    else base
  if truthy_seq ps.bip.b1c_sequence && truthy_seq ps.bip.b2_sequence then
    let b1c_len := ((ps.bip.b1c_sequence.getD []).length : ℤ)
    let b2_len := ((ps.bip.b2_sequence.getD []).length : ℤ)
    { withF with
      B1c := some (ps.bip.start_pos, ps.bip.start_pos + b1c_len - 1),
      B2 := some (ps.bip.end_pos - b2_len + 1, ps.bip.end_pos) }
  else withF

/-- The statement `validate_primer_geometry(regions, self.constraints)` in
`PrimerDesigner._validate_primer_set_geometry` (primer_design.py line 591).
The function it names is the EIGHT-positional-parameter
`utils.validate_primer_geometry`; handed only a regions dictionary and a
constraints dictionary, the Python interpreter raises `TypeError`
("missing 6 required positional arguments") at the call, before any
geometric rule is examined. -/
def geometry_call (_regions : Regions) (_c : Constraints) : Except PyErr Unit :=
  .error .typeError

/-- `PrimerDesigner._validate_primer_set_geometry`: build the regions, run
the (mis-arity) geometry call, then attach the F2-B2 amplicon size and mark
the set valid.  The code after the call is unreachable because the call
raises on every input. -/
def validate_primer_set_geometry (c : Constraints) (ps : LampPrimerSet) :
    Except PyErr LampPrimerSet :=
  let regions := primer_set_regions ps
  match geometry_call regions c with
  | .error e => .error e
  | .ok _ =>
    let ps :=
      match regions.F2, regions.B2 with
      | some f2, some b2 => { ps with f2_b2_amplicon_size := b2.1 - f2.2 - 1 }
      | _, _ => ps
    .ok { ps with geometric_validity := true }

/-- Mean of the individual primer scores of a set (the list of primers is
structurally non-empty, so the division is by at least 4). -/
def mean_primer_score (ps : LampPrimerSet) : ℚ :=
  (((get_all_primers ps).map (fun p => p.score)).sum : ℚ) /
    (((get_all_primers ps).length : ℕ) : ℚ)

/-- `PrimerDesigner._score_primer_set`: composite score plus the two
non-fatal warnings.  The amplicon-deviation penalty applies only when the
stored amplicon size is positive. -/
def score_primer_set (ps : LampPrimerSet) : LampPrimerSet :=
  let avg_individual_score := mean_primer_score ps
  let tm_range := get_tm_range ps
  let tm_uniformity := tm_range.2 - tm_range.1
  let tm_uniformity_penalty := -tm_uniformity
  let amplicon_penalty :=
    if 0 < ps.f2_b2_amplicon_size then
      -((((ps.f2_b2_amplicon_size - 160).natAbs : ℕ) : ℚ) / 10)
    else 0
  let w1 := if 5 < tm_uniformity then [SetWarning.largeTmRange tm_uniformity] else []
  let w2 :=
    if 200 < ps.f2_b2_amplicon_size then
      [SetWarning.largeAmplicon ps.f2_b2_amplicon_size] else []
  { ps with
    overall_score := avg_individual_score + tm_uniformity_penalty + amplicon_penalty,
    tm_uniformity := tm_uniformity,
    warnings := ps.warnings ++ w1 ++ w2 }

/-- One combination trial of the search loop in
`PrimerDesigner.design_primer_set`: assemble the set, validate geometry,
attach the best loop candidates, score.  Every error is caught at this
boundary by the caller. -/
def run_combination (c : Constraints) (include_loop_primers : Bool)
    (lf_candidates lb_candidates : List Primer)
    (f3 b3 fip bip : Primer) : Except PyErr LampPrimerSet :=
  let ps : LampPrimerSet :=
    { f3 := f3, b3 := b3, fip := fip, bip := bip, lf := none, lb := none,
      overall_score := 0, tm_uniformity := 0, specificity_score := 0,
      geometric_validity := true, f3_f2_distance := 0, b3_b2_distance := 0,
      f2_b2_amplicon_size := 0, warnings := [] }
  match validate_primer_set_geometry c ps with
  | .error e => .error e
  | .ok ps =>
    let ps :=
      if include_loop_primers && !lf_candidates.isEmpty then
        { ps with lf := lf_candidates.head? } else ps
    let ps :=
      if include_loop_primers && !lb_candidates.isEmpty then
        { ps with lb := lb_candidates.head? } else ps
    .ok (score_primer_set ps)

/-- The nested combination loops of `design_primer_set` with their
cascading `break`s: trials run in lexicographic order, each failure is
caught and skipped, and the loop stops right after an append reaches
`max_candidates`. -/
def search_loop (c : Constraints) (include_loop_primers : Bool)
    (lf_candidates lb_candidates : List Primer) (max_candidates : ℤ) :
    List (Primer × Primer × Primer × Primer) → List LampPrimerSet →
    List LampPrimerSet
  | [], acc => acc
  | t :: ts, acc =>
    match run_combination c include_loop_primers lf_candidates lb_candidates
        t.1 t.2.1 t.2.2.1 t.2.2.2 with
    | .ok s =>
      let acc2 := acc ++ [s]
      if max_candidates ≤ (acc2.length : ℤ) then acc2
      else search_loop c include_loop_primers lf_candidates lb_candidates
        max_candidates ts acc2
    | .error _ =>
      search_loop c include_loop_primers lf_candidates lb_candidates
        max_candidates ts acc

/-- The lexicographic list of combination trials (the source limits every
role to its first 20 candidates). -/
def combination_trials (f3c b3c fipc bipc : List Primer) :
    List (Primer × Primer × Primer × Primer) :=
  (f3c.take 20).flatMap (fun f3 =>
    (b3c.take 20).flatMap (fun b3 =>
      (fipc.take 20).flatMap (fun fip =>
        (bipc.take 20).map (fun bip => (f3, b3, fip, bip)))))

/-- `PrimerDesigner.design_primer_set`: generate per-role candidates, check
the minimum count of 5 per mandatory role, run the bounded combination
search, and either raise `InsufficientCandidatesError` or return the sets
sorted by overall score descending. -/
def design_primer_set (th : ThermoCalculator) (c : Constraints)
    (target : Sequence) (include_loop_primers : Bool) (max_candidates : ℤ) :
    Except PyErr (List LampPrimerSet) :=
  match generate_f3_candidates th c target.seq with
  | .error e => .error e
  | .ok f3c =>
  match generate_b3_candidates th c target.seq with
  | .error e => .error e
  | .ok b3c =>
  match generate_fip_candidates th c target.seq with
  | .error e => .error e
  | .ok fipc =>
  match generate_bip_candidates th c target.seq with
  | .error e => .error e
  | .ok bipc =>
  if f3c.length < 5 then .error (.insufficientCandidates "F3" f3c.length 5)
  else if b3c.length < 5 then .error (.insufficientCandidates "B3" b3c.length 5)
  else if fipc.length < 5 then .error (.insufficientCandidates "FIP" fipc.length 5)
  else if bipc.length < 5 then .error (.insufficientCandidates "BIP" bipc.length 5)
  else
    match (if include_loop_primers then
        generate_loop_candidates th c .LF target.seq else .ok []) with
    | .error e => .error e
    | .ok lf_candidates =>
    match (if include_loop_primers then
        generate_loop_candidates th c .LB target.seq else .ok []) with
    | .error e => .error e
    | .ok lb_candidates =>
      let primer_sets :=
        search_loop c include_loop_primers lf_candidates lb_candidates
          max_candidates (combination_trials f3c b3c fipc bipc) []
      if primer_sets.isEmpty then
        .error (.insufficientCandidates "primer_sets" 0 1)
      else .ok (sort_desc (fun s => s.overall_score) primer_sets)

/-- A neutral primer value used to build concrete test fixtures. -/
def mk_test_primer (ty : PrimerType) (sp ep : ℤ) : Primer :=
  { type := ty, sequence := ['A'], start_pos := sp, end_pos := ep,
    strand := "+", tm := 60, gc_content := 50, delta_g := 0, score := 0,
    f1c_sequence := none, f2_sequence := none,
    b1c_sequence := none, b2_sequence := none,
    end_stability := 0, hairpin_dg := 0, dimer_dg := 0, warnings := [] }

/-- A primer set fixture with the given four mandatory primers and all
derived fields at their dataclass defaults. -/
def mk_test_set (f3 b3 fip bip : Primer) : LampPrimerSet :=
  { f3 := f3, b3 := b3, fip := fip, bip := bip, lf := none, lb := none,
    overall_score := 0, tm_uniformity := 0, specificity_score := 0,
    geometric_validity := true, f3_f2_distance := 0, b3_b2_distance := 0,
    f2_b2_amplicon_size := 0, warnings := [] }

/-- Fixture for the geometry claims: the specification scenario in which F3
ends at 30 while FIP starts at 25 (an F3/FIP overlap). -/
def ps_overlap : LampPrimerSet :=
  mk_test_set (mk_test_primer .F3 0 30) (mk_test_primer .B3 180 200)
    (mk_test_primer .FIP 25 60) (mk_test_primer .BIP 120 155)

/-- Fixture for the amplicon claim: full sub-regions F2 = (30,49),
F1c = (50,69), B1c = (90,109), B2 = (100,119), so the derived amplicon size
is 100 - 49 - 1 = 50, outside the configured 120-200. -/
def ps_small_amplicon : LampPrimerSet :=
  mk_test_set (mk_test_primer .F3 0 17) (mk_test_primer .B3 260 279)
    { mk_test_primer .FIP 30 69 with
        f1c_sequence := some (List.replicate 20 'A'),
        f2_sequence := some (List.replicate 20 'A') }
    { mk_test_primer .BIP 90 119 with
        b1c_sequence := some (List.replicate 20 'A'),
        b2_sequence := some (List.replicate 20 'A') }

/-- Fixture for the scoring claim: four primers with score 0 and Tm 60, and
a set whose stored amplicon size is 0 (the value every set reaches the
scorer with, since geometry validation never attaches one). -/
def ps_zero_amplicon : LampPrimerSet :=
  mk_test_set (mk_test_primer .F3 0 17) (mk_test_primer .B3 260 279)
    (mk_test_primer .FIP 30 69) (mk_test_primer .BIP 90 119)

/-- A thermodynamic oracle whose every computation fails. -/
def th_fail : ThermoCalculator :=
  { calculate_tm := fun _ => .error .otherError,
    calculate_free_energy_37c := fun _ => .error .otherError,
    calculate_end_stability := fun _ => .error .otherError,
    predict_hairpin := fun _ => .error .otherError }

/-- A thermodynamic oracle returning in-range constants (Tm 61.5, no
hairpins, end stability -3). -/
def th_good : ThermoCalculator :=
  { calculate_tm := fun _ => .ok (123 / 2 : ℚ),
    calculate_free_energy_37c := fun _ => .ok 0,
    calculate_end_stability := fun _ => .ok (-3),
    predict_hairpin := fun _ => .ok [] }

/-- The empty target sequence. -/
def empty_target : Sequence :=
  { header := "empty", seq := [],
    valid := fun c hc => absurd hc (List.not_mem_nil c) }

/-- A 15-base target with balanced composition (7 of 15 G/C, no
homopolymer, 3-prime T): its single F3 window survives the filter under
the `th_good` oracle. -/
def s15 : List Char :=
  ['A', 'T', 'C', 'G', 'A', 'T', 'C', 'G', 'A', 'T', 'C', 'G', 'A', 'C', 'T']

/-- The single F3 candidate that `_generate_f3_candidates` builds from
`s15` under `th_good` (window length 15 at start 0). -/
def p_val : Primer :=
  match create_primer th_good .F3 (pySlice s15 0 15) 0 14 "+" with
  | .ok p => p
  | .error _ => mk_test_primer .F3 0 0

/-- A 15-base target that starts with the dinucleotide repeat (AT)x4 —
the pattern the optional low-complexity scan rejects — while keeping
40% GC, no homopolymer run over 4, and a 3-prime A. -/
def s15_lc : List Char :=
  ['A', 'T', 'A', 'T', 'A', 'T', 'A', 'T', 'G', 'C', 'G', 'C', 'G', 'C', 'A']

/-- The single F3 candidate that `_generate_f3_candidates` builds from
`s15_lc` under `th_good`. -/
def p_lc : Primer :=
  match create_primer th_good .F3 (pySlice s15_lc 0 15) 0 14 "+" with
  | .ok p => p
  | .error _ => mk_test_primer .F3 0 0

/-- Total complement of a single valid base (used to state what
`map_complement` computes on valid input). -/
def comp_char (c : Char) : Char := (complement_map c).getD 'A'

/-!  Theorems.  First the supporting lemmas about the embedded primitives,
then one theorem (plus witness or counterexample) per claim. -/

theorem mem_pyRange {a : ℕ} {b : ℤ} {m : ℕ} :
    m ∈ pyRange a b ↔ a ≤ m ∧ (m : ℤ) < b := by
  unfold pyRange
  rw [List.mem_range'_1]
  omega

theorem complement_map_spec {c d : Char} (h : complement_map c = some d) :
    c.toUpper = c ∧ d.toUpper = d ∧ complement_map d = some c := by
  unfold complement_map at h
  rcases ho : complement_pairs.find? (fun p => p.1 == c) with _ | p
  · rw [ho] at h; simp at h
  · rw [ho] at h
    have hc : p.1 = c := by simpa using List.find?_some ho
    have hd : p.2 = d := by simpa using h
    have hmem : p ∈ complement_pairs := List.mem_of_find?_eq_some ho
    subst hc
    subst hd
    fin_cases hmem <;> decide

theorem map_complement_of_valid {l : List Char}
    (h : ∀ c ∈ l, (complement_map c).isSome) :
    map_complement l = .ok (l.map comp_char) := by
  induction l with
  | nil => rfl
  | cons c rest ih =>
    obtain ⟨d, hd⟩ := Option.isSome_iff_exists.mp (h c (List.mem_cons_self c rest))
    have hup := (complement_map_spec hd).1
    have hrest := ih (fun x hx => h x (List.mem_cons_of_mem c hx))
    simp only [map_complement, hup, hd, hrest, List.map_cons]
    simp [comp_char, hd]

theorem comp_char_involutive {c : Char} (h : (complement_map c).isSome) :
    (complement_map (comp_char c)).isSome ∧ comp_char (comp_char c) = c := by
  obtain ⟨d, hd⟩ := Option.isSome_iff_exists.mp h
  have hback := (complement_map_spec hd).2.2
  constructor
  · simp [comp_char, hd, hback]
  · simp [comp_char, hd, hback]

theorem reverse_complement_of_valid {l : List Char}
    (h : ∀ c ∈ l, (complement_map c).isSome) :
    reverse_complement l = .ok ((l.map comp_char).reverse) := by
  simp [reverse_complement, map_complement_of_valid h]

/-- C8 (counterexample): `reverse_complement` also accepts lower-case
input (it upper-cases before the dictionary lookup), and there the double
application is NOT the identity: rc(rc("a")) = "A" ≠ "a".  So the claim
fails on valid inputs that are not upper-case. -/
theorem c8_counterexample :
    reverse_complement ['a'] = .ok ['T'] ∧
    reverse_complement ['T'] = .ok ['A'] ∧
    (['A'] : List Char) ≠ ['a'] := by
  refine ⟨by decide, by decide, by decide⟩

/-- C8 (amended): for every valid nucleotide string made of upper-case
characters (A/T/C/G and the IUPAC ambiguity codes, exactly the keys of the
complement dictionary), applying `reverse_complement` twice returns the
original string. -/
theorem c8_involution (l : List Char)
    (h : ∀ c ∈ l, (complement_map c).isSome) :
    ∃ m, reverse_complement l = .ok m ∧ reverse_complement m = .ok l := by
  refine ⟨(l.map comp_char).reverse, reverse_complement_of_valid h, ?_⟩
  have hvalid : ∀ c ∈ (l.map comp_char).reverse, (complement_map c).isSome := by
    intro c hc
    rw [List.mem_reverse, List.mem_map] at hc
    obtain ⟨a, ha, rfl⟩ := hc
    exact (comp_char_involutive (h a ha)).1
  rw [reverse_complement_of_valid hvalid]
  have hmap : ((l.map comp_char).reverse.map comp_char) = l.reverse := by
    rw [List.map_reverse, List.map_map]
    congr 1
    have : ∀ c ∈ l, (comp_char ∘ comp_char) c = id c := by
      intro c hc
      exact (comp_char_involutive (h c hc)).2
    rw [List.map_congr_left this, List.map_id]
  rw [hmap, List.reverse_reverse]

/-- C8 (witness): the amended involution evaluated on ACGTN. -/
theorem c8_witness :
    (∀ c ∈ (['A', 'C', 'G', 'T', 'N'] : List Char), (complement_map c).isSome) ∧
    ∃ m, reverse_complement ['A', 'C', 'G', 'T', 'N'] = .ok m ∧
      reverse_complement m = .ok ['A', 'C', 'G', 'T', 'N'] :=
  ⟨by decide, c8_involution ['A', 'C', 'G', 'T', 'N'] (by decide)⟩

theorem count_gc_le_length (l : List Char) :
    l.count 'G' + l.count 'C' ≤ l.length := by
  induction l with
  | nil => simp
  | cons a t ih =>
    simp only [List.count_cons, List.length_cons]
    rcases eq_or_ne a 'G' with hG | hG <;> rcases eq_or_ne a 'C' with hC | hC <;>
      simp [hG, hC] <;> omega

/-- C10: `calculate_gc_content` is total — 0 on the empty string, and on a
non-empty string it is 100 times the (case-insensitive) G/C count divided
by the length, a value between 0 and 100. -/
theorem c10_gc_content_total :
    calculate_gc_content [] = 0 ∧
    ∀ l : List Char, l ≠ [] →
      (calculate_gc_content l =
        100 * ((((l.map Char.toUpper).count 'G' +
          (l.map Char.toUpper).count 'C' : ℕ) : ℚ) / (l.length : ℚ)) ∧
      0 ≤ calculate_gc_content l ∧ calculate_gc_content l ≤ 100) := by
  refine ⟨rfl, ?_⟩
  intro l hl
  have hne : l.isEmpty = false := by
    simpa [List.isEmpty_iff] using hl
  have hlen : (0 : ℚ) < (l.length : ℚ) := by
    have : 0 < l.length := List.length_pos.mpr hl
    exact_mod_cast this
  have hval : calculate_gc_content l =
      ((((l.map Char.toUpper).count 'G' +
        (l.map Char.toUpper).count 'C' : ℕ) : ℚ) / (l.length : ℚ)) * 100 := by
    simp [calculate_gc_content, hne]
  have hcount : ((l.map Char.toUpper).count 'G' +
      (l.map Char.toUpper).count 'C' : ℕ) ≤ l.length := by
    have := count_gc_le_length (l.map Char.toUpper)
    simpa using this
  refine ⟨by rw [hval]; ring, ?_, ?_⟩
  · rw [hval]
    positivity
  · rw [hval]
    have hq : ((((l.map Char.toUpper).count 'G' +
        (l.map Char.toUpper).count 'C' : ℕ) : ℚ) / (l.length : ℚ)) ≤ 1 := by
      rw [div_le_one hlen]
      exact_mod_cast hcount
    nlinarith

/-- C10 (witness): evaluated on "GA". -/
theorem c10_witness :
    (['G', 'A'] : List Char) ≠ [] ∧
    (calculate_gc_content ['G', 'A'] =
        100 * ((((['G', 'A'].map Char.toUpper).count 'G' +
          (['G', 'A'].map Char.toUpper).count 'C' : ℕ) : ℚ) /
          ((['G', 'A'] : List Char).length : ℚ)) ∧
      0 ≤ calculate_gc_content ['G', 'A'] ∧
      calculate_gc_content ['G', 'A'] ≤ 100) :=
  ⟨by decide, c10_gc_content_total.2 ['G', 'A'] (by decide)⟩

/-- C9: with the default flags, a GC content outside the band or an
over-long homopolymer run makes `validate_sequence_composition` raise
`ValueError` instead of returning, and any `(is_valid, issues)` it does
return was produced solely by the secondary-structure and 3-prime G/C
checks (with `is_valid` true exactly when no issue was found). -/
theorem c9_composition_behavior (l : List Char) (min_gc max_gc : ℚ)
    (max_homopolymer : ℕ) :
    ((calculate_gc_content l < min_gc ∨ calculate_gc_content l > max_gc ∨
        has_excessive_repeats l max_homopolymer = true) →
      validate_sequence_composition l min_gc max_gc max_homopolymer false false =
        .error .valueError) ∧
    (∀ is_valid issues,
      validate_sequence_composition l min_gc max_gc max_homopolymer false false =
        .ok (is_valid, issues) →
      min_gc ≤ calculate_gc_content l ∧ calculate_gc_content l ≤ max_gc ∧
      has_excessive_repeats l max_homopolymer = false ∧
      issues ⊆ [CompositionIssue.strongSecondaryStructure,
        CompositionIssue.strongThreePrimeEnd] ∧
      is_valid = issues.isEmpty) := by
  constructor
  · intro h
    by_cases h1 : min_gc < 0 ∨ max_gc > 100 ∨ min_gc > max_gc
    · simp [validate_sequence_composition, h1]
    by_cases h2 : max_homopolymer = 0
    · simp [validate_sequence_composition, h1, h2]
    by_cases h3 : calculate_gc_content l < min_gc ∨ calculate_gc_content l > max_gc
    · simp [validate_sequence_composition, h1, h2, h3]
    rcases h with hgc | hgc | hh
    · exact absurd (Or.inl hgc) h3
    · exact absurd (Or.inr hgc) h3
    · simp [validate_sequence_composition, h1, h2, h3, hh]
  · intro is_valid issues h
    by_cases h1 : min_gc < 0 ∨ max_gc > 100 ∨ min_gc > max_gc
    · simp [validate_sequence_composition, h1] at h
    by_cases h2 : max_homopolymer = 0
    · simp [validate_sequence_composition, h1, h2] at h
    by_cases h3 : calculate_gc_content l < min_gc ∨ calculate_gc_content l > max_gc
    · simp [validate_sequence_composition, h1, h2, h3] at h
    by_cases hh : has_excessive_repeats l max_homopolymer = true
    · simp [validate_sequence_composition, h1, h2, h3, hh] at h
    simp only [validate_sequence_composition, h1, h2, h3, hh,
      if_false, ite_false, if_neg, Bool.false_and] at h
    simp only [Bool.false_eq_true, if_false, ite_false] at h
    rcases hs : has_strong_secondary_structure l (-3) with e | strong
    · rw [hs] at h
      simp at h
    · rw [hs] at h
      rw [not_or] at h3
      refine ⟨le_of_not_lt h3.1, le_of_not_lt h3.2, by simpa using hh, ?_, ?_⟩
      · cases strong <;> cases htp : three_prime_gc l <;>
          simp only [htp, Bool.false_eq_true, if_true, if_false,
            ite_true, ite_false] at h <;>
          simp only [Except.ok.injEq, Prod.mk.injEq] at h <;>
          rw [← h.2] <;> decide
      · cases strong <;> cases htp : three_prime_gc l <;>
          simp only [htp, Bool.false_eq_true, if_true, if_false,
            ite_true, ite_false] at h <;>
          simp only [Except.ok.injEq, Prod.mk.injEq] at h <;>
          simp [← h.1, ← h.2]

/-- C9 (witness): eight consecutive G (a homopolymer run longer than the
default maximum of 4) makes the validator raise `ValueError`. -/
theorem c9_witness :
    has_excessive_repeats (List.replicate 8 'G') 4 = true ∧
    validate_sequence_composition (List.replicate 8 'G') 30 70 4 false false =
      .error .valueError :=
  ⟨by decide, (c9_composition_behavior (List.replicate 8 'G') 30 70 4).1
    (Or.inr (Or.inr (by decide)))⟩

theorem fip_pair_mem :
    (((100, 114), (79, 103)) : (ℕ × ℕ) × (ℕ × ℕ)) ∈
      fip_region_pairs DEFAULT_CONSTRAINTS 300 := by
  unfold fip_region_pairs
  refine List.mem_flatMap.2 ⟨15, by decide, ?_⟩
  refine List.mem_flatMap.2 ⟨25, by decide, ?_⟩
  refine List.mem_flatMap.2 ⟨100, by decide, ?_⟩
  exact List.mem_map.2 ⟨79, by decide, rfl⟩

/-- C5 (counterexample): on a 300-base target with the default constraints,
the FIP enumeration produces the pair F1c = (100,114), F2 = (79,103); the
F1c window starts INSIDE the F2 window (79 ≤ 100 ≤ 103), so no minimum gap
between the two windows is enforced — the loops only separate the two start
positions. -/
theorem c5_counterexample :
    ((((100, 114), (79, 103)) : (ℕ × ℕ) × (ℕ × ℕ)) ∈
      fip_region_pairs DEFAULT_CONSTRAINTS 300) ∧
    (79 : ℕ) ≤ 100 ∧ (100 : ℕ) ≤ 103 :=
  ⟨fip_pair_mem, by decide, by decide⟩

/-- C5 (amended): every enumerated FIP pair has F2 starting at position 50
or later and the F1c start at least 21 positions after the F2 start (the
windows themselves may overlap when F2 is longer than 21), and the
constructed FIP is reverse_complement(F1c window) ++ F2 window in sense
orientation; every enumerated BIP pair keeps a true gap of at least 19
bases between the B1c window end and the B2 window start, and the
constructed BIP is reverse_complement(B1c window) ++ B2 window. -/
theorem c5_construction (c : Constraints) (seq_len : ℕ) :
    (∀ pr ∈ fip_region_pairs c seq_len,
      50 ≤ pr.2.1 ∧ pr.2.1 + 21 ≤ pr.1.1 ∧
      ∀ (seq rc_f1c : List Char),
        reverse_complement (pySlice seq pr.1.1 (pr.1.2 + 1)) = .ok rc_f1c →
        construct_fip_primer seq pr.1 pr.2 =
          .ok (rc_f1c ++ pySlice seq pr.2.1 (pr.2.2 + 1))) ∧
    (∀ pr ∈ bip_region_pairs c seq_len,
      50 ≤ pr.1.1 ∧ pr.1.2 + 20 ≤ pr.2.1 ∧
      ∀ (seq rc_b1c : List Char),
        reverse_complement (pySlice seq pr.1.1 (pr.1.2 + 1)) = .ok rc_b1c →
        construct_bip_primer seq pr.1 pr.2 =
          .ok (rc_b1c ++ pySlice seq pr.2.1 (pr.2.2 + 1))) := by
  constructor
  · intro pr hpr
    unfold fip_region_pairs at hpr
    rw [List.mem_flatMap] at hpr
    obtain ⟨f1c_len, _, hpr⟩ := hpr
    rw [List.mem_flatMap] at hpr
    obtain ⟨f2_len, _, hpr⟩ := hpr
    rw [List.mem_flatMap] at hpr
    obtain ⟨f1c_start, _, hpr⟩ := hpr
    rw [List.mem_map] at hpr
    obtain ⟨f2_start, hl4, rfl⟩ := hpr
    have h4 := mem_pyRange.1 hl4
    refine ⟨h4.1, ?_, ?_⟩
    · dsimp only
      have := h4.2
      omega
    intro seq rc_f1c hrc
    simp [construct_fip_primer, hrc]
  · intro pr hpr
    unfold bip_region_pairs at hpr
    rw [List.mem_flatMap] at hpr
    obtain ⟨b1c_len, _, hpr⟩ := hpr
    rw [List.mem_flatMap] at hpr
    obtain ⟨b2_len, _, hpr⟩ := hpr
    rw [List.mem_flatMap] at hpr
    obtain ⟨b1c_start, hl3, hpr⟩ := hpr
    rw [List.mem_map] at hpr
    obtain ⟨b2_start, hl4, rfl⟩ := hpr
    have h3 := mem_pyRange.1 hl3
    have h4 := mem_pyRange.1 hl4
    refine ⟨h3.1, ?_, ?_⟩
    · dsimp only
      have := h4.1
      omega
    intro seq rc_b1c hrc
    simp [construct_bip_primer, hrc]

/-- C5 (witness): the amended statement evaluated on the enumerated pair
F1c = (100,114), F2 = (79,103) of a 300-base target. -/
theorem c5_witness :
    ((((100, 114), (79, 103)) : (ℕ × ℕ) × (ℕ × ℕ)) ∈
      fip_region_pairs DEFAULT_CONSTRAINTS 300) ∧
    (50 ≤ (79 : ℕ) ∧ (79 : ℕ) + 21 ≤ 100 ∧
      ∀ (seq rc_f1c : List Char),
        reverse_complement (pySlice seq 100 115) = .ok rc_f1c →
        construct_fip_primer seq (100, 114) (79, 103) =
          .ok (rc_f1c ++ pySlice seq 79 104)) :=
  ⟨fip_pair_mem,
   (c5_construction DEFAULT_CONSTRAINTS 300).1
     (((100, 114), (79, 103)) : (ℕ × ℕ) × (ℕ × ℕ)) fip_pair_mem⟩

/-- C7 (counterexample): a set whose stored amplicon size is 0 — which is
what every set reaching the scorer carries, since geometry validation never
attaches an amplicon — is scored WITHOUT the amplicon-deviation penalty,
while the claimed formula demands a penalty of |0 - 160| / 10 = 16. -/
theorem c7_counterexample :
    (score_primer_set ps_zero_amplicon).overall_score ≠
      mean_primer_score ps_zero_amplicon -
        ((get_tm_range ps_zero_amplicon).2 - (get_tm_range ps_zero_amplicon).1) -
        (((ps_zero_amplicon.f2_b2_amplicon_size - 160).natAbs : ℚ) / 10) := by
  have habs : ((ps_zero_amplicon.f2_b2_amplicon_size - 160).natAbs : ℕ) = 160 := by
    decide
  simp only [score_primer_set, mean_primer_score, get_all_primers, get_tm_range,
    ps_zero_amplicon, mk_test_set, mk_test_primer, habs,
    List.map_cons, List.map_nil, List.append_nil, List.foldl_cons, List.foldl_nil,
    min_self, max_self, List.sum_cons, List.sum_nil, List.length_cons,
    List.length_nil]
  norm_num

/-- C7 (amended): the overall score equals the mean of the individual
primer scores minus the Tm-range penalty minus the amplicon-deviation
penalty |amplicon - 160| / 10, the latter applied only when the stored
amplicon size is positive (it is 0 otherwise); the primers are untouched
and the two large-spread warnings are appended without rejecting the set. -/
theorem c7_score_formula (ps : LampPrimerSet) :
    (score_primer_set ps).overall_score =
      mean_primer_score ps - ((get_tm_range ps).2 - (get_tm_range ps).1) -
        (if 0 < ps.f2_b2_amplicon_size then
          (((ps.f2_b2_amplicon_size - 160).natAbs : ℚ) / 10) else 0) ∧
    (score_primer_set ps).f3 = ps.f3 ∧ (score_primer_set ps).b3 = ps.b3 ∧
    (score_primer_set ps).fip = ps.fip ∧ (score_primer_set ps).bip = ps.bip ∧
    (score_primer_set ps).lf = ps.lf ∧ (score_primer_set ps).lb = ps.lb ∧
    (score_primer_set ps).warnings =
      ps.warnings ++
        (if 5 < (get_tm_range ps).2 - (get_tm_range ps).1 then
          [SetWarning.largeTmRange ((get_tm_range ps).2 - (get_tm_range ps).1)]
        else []) ++
        (if 200 < ps.f2_b2_amplicon_size then
          [SetWarning.largeAmplicon ps.f2_b2_amplicon_size] else []) := by
  refine ⟨?_, rfl, rfl, rfl, rfl, rfl, rfl, rfl⟩
  simp only [score_primer_set]
  split_ifs <;> ring

theorem collect_valid_ok_of_pre_ok {α β : Type} (pre : α → Except PyErr β)
    (step : β → Except PyErr (Primer × Bool)) (xs : List α) (acc : List Primer)
    (h : ∀ x ∈ xs, ∃ y, pre x = .ok y) :
    ∃ l, collect_valid pre step xs acc = .ok l := by
  induction xs generalizing acc with
  | nil => exact ⟨acc, rfl⟩
  | cons x xs ih =>
    obtain ⟨y, hy⟩ := h x (List.mem_cons_self x xs)
    have hrest : ∀ z ∈ xs, ∃ y, pre z = .ok y :=
      fun z hz => h z (List.mem_cons_of_mem x hz)
    rcases hstep : step y with e | pb
    · simp only [collect_valid, hy, hstep]
      exact ih acc hrest
    · obtain ⟨p, b⟩ := pb
      cases b
      · simp only [collect_valid, hy, hstep]
        exact ih acc hrest
      · simp only [collect_valid, hy, hstep]
        exact ih (acc ++ [p]) hrest

theorem mem_collect_valid {α β : Type} {pre : α → Except PyErr β}
    {step : β → Except PyErr (Primer × Bool)} :
    ∀ {xs : List α} {acc l : List Primer} {p : Primer},
    collect_valid pre step xs acc = .ok l → p ∈ l →
    p ∈ acc ∨ ∃ x ∈ xs, ∃ y, pre x = .ok y ∧ step y = .ok (p, true) := by
  intro xs
  induction xs with
  | nil =>
    intro acc l p hok hp
    simp only [collect_valid, Except.ok.injEq] at hok
    subst hok
    exact Or.inl hp
  | cons x xs ih =>
    intro acc l p hok hp
    rcases hpre : pre x with e | y
    · simp only [collect_valid, hpre] at hok
      exact (Except.noConfusion hok)
    · rcases hstep : step y with e2 | pb
      · simp only [collect_valid, hpre, hstep] at hok
        rcases ih hok hp with h | ⟨x2, hx2, hy2⟩
        · exact Or.inl h
        · exact Or.inr ⟨x2, List.mem_cons_of_mem x hx2, hy2⟩
      · obtain ⟨p2, b⟩ := pb
        cases b
        · simp only [collect_valid, hpre, hstep] at hok
          rcases ih hok hp with h | ⟨x2, hx2, hy2⟩
          · exact Or.inl h
          · exact Or.inr ⟨x2, List.mem_cons_of_mem x hx2, hy2⟩
        · simp only [collect_valid, hpre, hstep] at hok
          rcases ih hok hp with h | ⟨x2, hx2, hy2⟩
          · rcases List.mem_append.1 h with h2 | h2
            · exact Or.inl h2
            · have hpp : p = p2 := by simpa using h2
              exact Or.inr ⟨x, List.mem_cons_self x xs, y, hpre,
                by rw [hpp]; exact hstep⟩
          · exact Or.inr ⟨x2, List.mem_cons_of_mem x hx2, hy2⟩

theorem mem_insert_desc {α : Type} (key : α → ℚ) (x : α) :
    ∀ (l : List α) (a : α), a ∈ insert_desc key x l ↔ a = x ∨ a ∈ l := by
  intro l
  induction l with
  | nil => intro a; simp [insert_desc]
  | cons y ys ih =>
    intro a
    simp only [insert_desc]
    split_ifs with h
    · simp [List.mem_cons]
    · simp only [List.mem_cons, ih a]
      tauto

theorem mem_sort_desc {α : Type} (key : α → ℚ) (l : List α) (a : α) :
    a ∈ sort_desc key l ↔ a ∈ l := by
  have general : ∀ (m acc : List α),
      a ∈ m.foldl (fun acc x => insert_desc key x acc) acc ↔ a ∈ acc ∨ a ∈ m := by
    intro m
    induction m with
    | nil => intro acc; simp
    | cons x xs ih =>
      intro acc
      simp only [List.foldl_cons]
      rw [ih, mem_insert_desc]
      simp only [List.mem_cons]
      tauto
  rw [sort_desc, general]
  simp

theorem map_complement_upper {l : List Char}
    (h : ∀ c ∈ l, (complement_map c.toUpper).isSome) :
    map_complement l =
      .ok (l.map (fun c => (complement_map c.toUpper).getD 'A')) := by
  induction l with
  | nil => rfl
  | cons c rest ih =>
    obtain ⟨d, hd⟩ :=
      Option.isSome_iff_exists.mp (h c (List.mem_cons_self c rest))
    have hrest := ih (fun x hx => h x (List.mem_cons_of_mem c hx))
    simp [map_complement, hd, hrest]

theorem reverse_complement_upper {l : List Char}
    (h : ∀ c ∈ l, (complement_map c.toUpper).isSome) :
    reverse_complement l =
      .ok ((l.map (fun c => (complement_map c.toUpper).getD 'A')).reverse) := by
  simp [reverse_complement, map_complement_upper h]

theorem valid_of_mem_pySlice {l : List Char} {a b : ℕ}
    (h : ∀ c ∈ l, (complement_map c.toUpper).isSome) :
    ∀ c ∈ pySlice l a b, (complement_map c.toUpper).isSome :=
  fun c hc => h c (List.mem_of_mem_drop (List.mem_of_mem_take hc))

theorem hairpin_scan_inner_false (l : List Char)
    (hv : ∀ c ∈ l, (complement_map c.toUpper).isSome) (i : ℕ) :
    ∀ js : List ℕ, hairpin_scan_inner l (-3) i js = .ok false := by
  intro js
  induction js with
  | nil => rfl
  | cons j js ih =>
    simp only [hairpin_scan_inner]
    split_ifs with hst
    · exact ih
    · simp only [reverse_complement_upper (valid_of_mem_pySlice hv)]
      rw [if_neg ?_]
      · exact ih
      · rintro ⟨-, hlt⟩
        have hstem : ((min 4 (min (l.length - j) (i + 1)) : ℕ) : ℚ) ≤ 4 := by
          exact_mod_cast min_le_left 4 (min (l.length - j) (i + 1))
        have hstem0 : (0 : ℚ) ≤ ((min 4 (min (l.length - j) (i + 1)) : ℕ) : ℚ) := by
          positivity
        linarith

theorem hairpin_scan_outer_false (l : List Char)
    (hv : ∀ c ∈ l, (complement_map c.toUpper).isSome) :
    ∀ idxs : List ℕ, hairpin_scan_outer l (-3) idxs = .ok false := by
  intro idxs
  induction idxs with
  | nil => rfl
  | cons i rest ih =>
    simp only [hairpin_scan_outer, hairpin_scan_inner_false l hv i]
    exact ih

theorem has_strong_never (l : List Char)
    (hv : ∀ c ∈ l, (complement_map c.toUpper).isSome) :
    has_strong_secondary_structure l (-3) = .ok false := by
  simp only [has_strong_secondary_structure, hairpin_scan_outer_false l hv]

theorem composition_ok_shape {l : List Char} {mg Mg : ℚ} {mh : ℕ} {cr cd : Bool}
    {b : Bool} {issues : List CompositionIssue}
    (h : validate_sequence_composition l mg Mg mh cr cd = .ok (b, issues)) :
    b = issues.isEmpty := by
  by_cases h1 : mg < 0 ∨ Mg > 100 ∨ mg > Mg
  · simp [validate_sequence_composition, h1] at h
  by_cases h2 : mh = 0
  · simp [validate_sequence_composition, h1, h2] at h
  by_cases h3 : calculate_gc_content l < mg ∨ calculate_gc_content l > Mg
  · simp [validate_sequence_composition, h1, h2, h3] at h
  by_cases h4 : (cr && has_excessive_repeats l mh) = true
  · simp [validate_sequence_composition, h1, h2, h3, h4] at h
  by_cases h5 : (cd && has_dinucleotide_repeats l) = true
  · simp [validate_sequence_composition, h1, h2, h3, h4, h5] at h
  by_cases h6 : has_excessive_repeats l mh = true
  · simp [validate_sequence_composition, h1, h2, h3, h4, h5, h6] at h
  rw [Bool.not_eq_true] at h4 h5 h6
  simp only [validate_sequence_composition, h1, h2, h3, h4, h5, h6,
    Bool.and_false, Bool.false_and, if_false, ite_false, Bool.false_eq_true] at h
  rcases hs : has_strong_secondary_structure l (-3) with e | strong
  · rw [hs] at h
    simp at h
  · rw [hs] at h
    simp only [Except.ok.injEq, Prod.mk.injEq] at h
    rw [← h.1, ← h.2]

theorem is_valid_primer_props {p : Primer} (h : is_valid_primer p = .ok true) :
    validate_sequence_composition p.sequence 30 70 4 false false = .ok (true, []) ∧
    optimal_tm_min ≤ p.tm ∧ p.tm ≤ optimal_tm_max ∧
    optimal_gc_min ≤ p.gc_content ∧ p.gc_content ≤ optimal_gc_max ∧
    hairpin_dg_max ≤ p.hairpin_dg := by
  unfold is_valid_primer at h
  rcases hc : validate_sequence_composition p.sequence 30 70 4 false false
    with e | pr
  · simp [hc] at h
  · obtain ⟨b, issues⟩ := pr
    simp only [hc] at h
    by_cases h1 : b = false
    · rw [if_pos h1] at h
      simp at h
    rw [if_neg h1] at h
    by_cases h2 : optimal_tm_min ≤ p.tm ∧ p.tm ≤ optimal_tm_max
    · rw [if_neg (not_not_intro h2)] at h
      by_cases h3 : optimal_gc_min ≤ p.gc_content ∧ p.gc_content ≤ optimal_gc_max
      · rw [if_neg (not_not_intro h3)] at h
        by_cases h4 : p.hairpin_dg < hairpin_dg_max
        · rw [if_pos h4] at h
          simp at h
        · have hb : b = true := by
            cases b
            · exact absurd rfl h1
            · rfl
          have hshape := composition_ok_shape hc
          have hissues : issues = [] := by
            rw [hb] at hshape
            exact (List.isEmpty_iff.mp hshape.symm)
          refine ⟨by rw [hb, hissues], h2.1, h2.2, h3.1, h3.2, not_lt.mp h4⟩
      · rw [if_pos h3] at h
        simp at h
    · rw [if_pos h2] at h
      simp at h

theorem mem_generated_valid {α β : Type} {pre : α → Except PyErr β}
    {step : β → Except PyErr (Primer × Bool)} {xs : List α} {k : ℕ}
    {key : Primer → ℚ} {l : List Primer} {p : Primer}
    (hgen : (match collect_valid pre step xs [] with
             | .error e => Except.error e
             | .ok cands => Except.ok ((sort_desc key cands).take k)) =
        Except.ok l)
    (hp : p ∈ l) :
    ∃ x ∈ xs, ∃ y, pre x = .ok y ∧ step y = .ok (p, true) := by
  rcases hc : collect_valid pre step xs [] with e | cands
  · rw [hc] at hgen
    cases hgen
  · rw [hc] at hgen
    simp only [Except.ok.injEq] at hgen
    subst hgen
    have hmem : p ∈ cands :=
      (mem_sort_desc key cands p).1 (List.mem_of_mem_take hp)
    rcases mem_collect_valid hc hmem with habs | hfound
    · cases habs
    · exact hfound

theorem f3_step_valid {th : ThermoCalculator} {seq : List Char} {w : ℕ × ℕ}
    {p : Primer} (h : f3_step th seq w = .ok (p, true)) :
    is_valid_primer p = .ok true := by
  unfold f3_step at h
  rcases hc : create_primer th .F3 (pySlice seq w.2 (w.2 + w.1)) (w.2 : ℤ)
      ((w.2 : ℤ) + (w.1 : ℤ) - 1) "+" with e | p0
  · simp only [hc] at h
    exact (Except.noConfusion h)
  · simp only [hc] at h
    rcases hv : is_valid_primer p0 with e | b
    · simp only [hv] at h
      exact (Except.noConfusion h)
    · simp only [hv, Except.ok.injEq, Prod.mk.injEq] at h
      rw [← h.1, hv, h.2]

theorem b3_step_valid {th : ThermoCalculator} {w : ℕ × ℕ × List Char}
    {p : Primer} (h : b3_step th w = .ok (p, true)) :
    is_valid_primer p = .ok true := by
  unfold b3_step at h
  rcases hc : create_primer th .B3 w.2.2 (w.2.1 : ℤ)
      ((w.2.1 : ℤ) + (w.1 : ℤ) - 1) "-" with e | p0
  · simp only [hc] at h
    exact (Except.noConfusion h)
  · simp only [hc] at h
    rcases hv : is_valid_primer p0 with e | b
    · simp only [hv] at h
      exact (Except.noConfusion h)
    · simp only [hv, Except.ok.injEq, Prod.mk.injEq] at h
      rw [← h.1, hv, h.2]

theorem fip_step_valid {th : ThermoCalculator} {seq : List Char}
    {pr : (ℕ × ℕ) × (ℕ × ℕ)} {p : Primer}
    (h : fip_step th seq pr = .ok (p, true)) :
    is_valid_primer p = .ok true := by
  unfold fip_step at h
  rcases hf : construct_fip_primer seq pr.1 pr.2 with e | fseq
  · simp only [hf] at h
    exact (Except.noConfusion h)
  · simp only [hf] at h
    rcases hc : create_primer th .FIP fseq (pr.2.1 : ℤ) (pr.1.2 : ℤ) "+"
      with e | p0
    · simp only [hc] at h
      exact (Except.noConfusion h)
    · simp only [hc] at h
      rcases hv : is_valid_primer { p0 with
          f1c_sequence := some (pySlice seq pr.1.1 (pr.1.2 + 1)),
          f2_sequence := some (pySlice seq pr.2.1 (pr.2.2 + 1)) } with e | b
      · simp only [hv] at h
        exact (Except.noConfusion h)
      · simp only [hv, Except.ok.injEq, Prod.mk.injEq] at h
        rw [← h.1, hv, h.2]

theorem bip_step_valid {th : ThermoCalculator} {seq : List Char}
    {pr : (ℕ × ℕ) × (ℕ × ℕ)} {p : Primer}
    (h : bip_step th seq pr = .ok (p, true)) :
    is_valid_primer p = .ok true := by
  unfold bip_step at h
  rcases hf : construct_bip_primer seq pr.1 pr.2 with e | bseq
  · simp only [hf] at h
    exact (Except.noConfusion h)
  · simp only [hf] at h
    rcases hc : create_primer th .BIP bseq (pr.1.1 : ℤ) (pr.2.2 : ℤ) "-"
      with e | p0
    · simp only [hc] at h
      exact (Except.noConfusion h)
    · simp only [hc] at h
      rcases hv : is_valid_primer { p0 with
          b1c_sequence := some (pySlice seq pr.1.1 (pr.1.2 + 1)),
          b2_sequence := some (pySlice seq pr.2.1 (pr.2.2 + 1)) } with e | b
      · simp only [hv] at h
        exact (Except.noConfusion h)
      · simp only [hv, Except.ok.injEq, Prod.mk.injEq] at h
        rw [← h.1, hv, h.2]

theorem loop_step_valid {th : ThermoCalculator} {ty : PrimerType}
    {w : ℕ × ℕ × List Char} {p : Primer}
    (h : loop_step th ty w = .ok (p, true)) :
    is_valid_primer p = .ok true := by
  unfold loop_step at h
  rcases hc : create_primer th ty w.2.2 (w.2.1 : ℤ)
      ((w.2.1 : ℤ) + (w.1 : ℤ) - 1) (if ty = .LF then "+" else "-")
    with e | p0
  · simp only [hc] at h
    exact (Except.noConfusion h)
  · simp only [hc] at h
    rcases hv : is_valid_primer p0 with e | b
    · simp only [hv] at h
      exact (Except.noConfusion h)
    · simp only [hv, Except.ok.injEq, Prod.mk.injEq] at h
      rw [← h.1, hv, h.2]

/-- C6 (amended): every candidate retained in any per-role candidate list
satisfies the hard admissibility filter as the code applies it: the
composition validator, called with its default flags — under which the
optional low-complexity scans (`check_repeats`, `check_dinuc_repeats`) are
disabled and therefore not enforced — returns `(True, [])` on its sequence
(GC band 30-70 passed, no homopolymer run over 4, no secondary-structure
or 3-prime issue recorded), its Tm lies in [58, 65], its GC% in [40, 60],
and its predicted hairpin ΔG is not more negative than -3 kcal/mol; a
candidate failing any applied check is discarded and never retained. -/
theorem c6_retained_candidates_valid (th : ThermoCalculator) (c : Constraints)
    (seq : List Char) (p : Primer)
    (h : (∃ l, generate_f3_candidates th c seq = .ok l ∧ p ∈ l) ∨
         (∃ l, generate_b3_candidates th c seq = .ok l ∧ p ∈ l) ∨
         (∃ l, generate_fip_candidates th c seq = .ok l ∧ p ∈ l) ∨
         (∃ l, generate_bip_candidates th c seq = .ok l ∧ p ∈ l) ∨
         (∃ l, generate_loop_candidates th c .LF seq = .ok l ∧ p ∈ l) ∨
         (∃ l, generate_loop_candidates th c .LB seq = .ok l ∧ p ∈ l)) :
    validate_sequence_composition p.sequence 30 70 4 false false = .ok (true, []) ∧
    optimal_tm_min ≤ p.tm ∧ p.tm ≤ optimal_tm_max ∧
    optimal_gc_min ≤ p.gc_content ∧ p.gc_content ≤ optimal_gc_max ∧
    hairpin_dg_max ≤ p.hairpin_dg := by
  have hvalid : is_valid_primer p = .ok true := by
    rcases h with ⟨l, hgen, hp⟩ | ⟨l, hgen, hp⟩ | ⟨l, hgen, hp⟩ |
      ⟨l, hgen, hp⟩ | ⟨l, hgen, hp⟩ | ⟨l, hgen, hp⟩
    · unfold generate_f3_candidates at hgen
      obtain ⟨x, -, y, -, hstep⟩ := mem_generated_valid hgen hp
      exact f3_step_valid hstep
    · unfold generate_b3_candidates at hgen
      obtain ⟨x, -, y, -, hstep⟩ := mem_generated_valid hgen hp
      exact b3_step_valid hstep
    · unfold generate_fip_candidates at hgen
      obtain ⟨x, -, y, hpre, hstep⟩ := mem_generated_valid hgen hp
      have hxy : y = x := by
        simpa using hpre.symm
      rw [hxy] at hstep
      exact fip_step_valid hstep
    · unfold generate_bip_candidates at hgen
      obtain ⟨x, -, y, hpre, hstep⟩ := mem_generated_valid hgen hp
      have hxy : y = x := by
        simpa using hpre.symm
      rw [hxy] at hstep
      exact bip_step_valid hstep
    · unfold generate_loop_candidates at hgen
      obtain ⟨x, -, y, -, hstep⟩ := mem_generated_valid hgen hp
      exact loop_step_valid hstep
    · unfold generate_loop_candidates at hgen
      obtain ⟨x, -, y, -, hstep⟩ := mem_generated_valid hgen hp
      exact loop_step_valid hstep
  exact is_valid_primer_props hvalid

theorem s15_gc : calculate_gc_content s15 = 140 / 3 := by
  have h0 : s15.isEmpty = false := by decide
  have h1 : ((s15.map Char.toUpper).count 'G' +
      (s15.map Char.toUpper).count 'C' : ℕ) = 7 := by decide
  have h2 : s15.length = 15 := by decide
  simp only [calculate_gc_content, h0, Bool.false_eq_true, if_false, ite_false,
    h1, h2]
  norm_num

theorem s15_composition :
    validate_sequence_composition s15 30 70 4 false false = .ok (true, []) := by
  have hrep : has_excessive_repeats s15 4 = false := by decide
  have htp : three_prime_gc s15 = false := by decide
  have hsec : has_strong_secondary_structure s15 (-3) = .ok false :=
    has_strong_never s15 (by decide)
  simp only [validate_sequence_composition, s15_gc, hrep, htp, hsec,
    Bool.false_and, Bool.false_eq_true, if_false, ite_false]
  norm_num

theorem p_val_seq : p_val.sequence = s15 := by decide

theorem p_val_tm : p_val.tm = 123 / 2 := rfl

theorem p_val_hairpin : p_val.hairpin_dg = 0 := rfl

theorem p_val_gc : p_val.gc_content = 140 / 3 := by
  have h : p_val.gc_content = calculate_gc_content (pySlice s15 0 15) := rfl
  rw [h, show pySlice s15 0 15 = s15 from by decide, s15_gc]

theorem p_val_valid : is_valid_primer p_val = .ok true := by
  simp only [is_valid_primer, p_val_seq, s15_composition, p_val_tm, p_val_gc,
    p_val_hairpin]
  norm_num [optimal_tm_min, optimal_tm_max, optimal_gc_min, optimal_gc_max,
    hairpin_dg_max]

theorem f3_gen_s15 :
    generate_f3_candidates th_good DEFAULT_CONSTRAINTS s15 = .ok [p_val] := by
  have htr : f3_trials DEFAULT_CONSTRAINTS s15.length = [(15, 0)] := by decide
  have hcreate : f3_step th_good s15 (15, 0) =
      (match is_valid_primer p_val with
       | .error e => .error e
       | .ok b => .ok (p_val, b)) := rfl
  have hstep : f3_step th_good s15 (15, 0) = .ok (p_val, true) := by
    rw [hcreate, p_val_valid]
  have hcol : collect_valid (fun w => .ok w) (f3_step th_good s15)
      [(15, 0)] [] = .ok [p_val] := by
    simp only [collect_valid, hstep, List.nil_append]
  simp only [generate_f3_candidates, htr, hcol]
  simp [sort_desc, insert_desc]

theorem s15_lc_gc : calculate_gc_content s15_lc = 40 := by
  have h0 : s15_lc.isEmpty = false := by decide
  have h1 : ((s15_lc.map Char.toUpper).count 'G' +
      (s15_lc.map Char.toUpper).count 'C' : ℕ) = 6 := by decide
  have h2 : s15_lc.length = 15 := by decide
  simp only [calculate_gc_content, h0, Bool.false_eq_true, if_false, ite_false,
    h1, h2]
  norm_num

theorem s15_lc_composition :
    validate_sequence_composition s15_lc 30 70 4 false false = .ok (true, []) := by
  have hrep : has_excessive_repeats s15_lc 4 = false := by decide
  have htp : three_prime_gc s15_lc = false := by decide
  have hsec : has_strong_secondary_structure s15_lc (-3) = .ok false :=
    has_strong_never s15_lc (by decide)
  simp only [validate_sequence_composition, s15_lc_gc, hrep, htp, hsec,
    Bool.false_and, Bool.false_eq_true, if_false, ite_false]
  norm_num

theorem p_lc_seq : p_lc.sequence = s15_lc := by decide

theorem p_lc_tm : p_lc.tm = 123 / 2 := rfl

theorem p_lc_hairpin : p_lc.hairpin_dg = 0 := rfl

theorem p_lc_gc : p_lc.gc_content = 40 := by
  have h : p_lc.gc_content = calculate_gc_content (pySlice s15_lc 0 15) := rfl
  rw [h, show pySlice s15_lc 0 15 = s15_lc from by decide, s15_lc_gc]

theorem p_lc_valid : is_valid_primer p_lc = .ok true := by
  simp only [is_valid_primer, p_lc_seq, s15_lc_composition, p_lc_tm, p_lc_gc,
    p_lc_hairpin]
  norm_num [optimal_tm_min, optimal_tm_max, optimal_gc_min, optimal_gc_max,
    hairpin_dg_max]

theorem f3_gen_s15_lc :
    generate_f3_candidates th_good DEFAULT_CONSTRAINTS s15_lc = .ok [p_lc] := by
  have htr : f3_trials DEFAULT_CONSTRAINTS s15_lc.length = [(15, 0)] := by decide
  have hcreate : f3_step th_good s15_lc (15, 0) =
      (match is_valid_primer p_lc with
       | .error e => .error e
       | .ok b => .ok (p_lc, b)) := rfl
  have hstep : f3_step th_good s15_lc (15, 0) = .ok (p_lc, true) := by
    rw [hcreate, p_lc_valid]
  have hcol : collect_valid (fun w => .ok w) (f3_step th_good s15_lc)
      [(15, 0)] [] = .ok [p_lc] := by
    simp only [collect_valid, hstep, List.nil_append]
  simp only [generate_f3_candidates, htr, hcol]
  simp [sort_desc, insert_desc]

/-- C6 (counterexample): a retained candidate whose sequence FAILS the
low-complexity check.  The F3 generator retains the (AT)x4-headed
candidate built from `s15_lc` (40% GC, no homopolymer run, Tm in range),
yet its sequence contains the dinucleotide repeat the low-complexity scan
rejects — running `validate_sequence_composition` with that scan enabled
raises `ValueError` on the very same sequence.  So retention does not
imply passing the low-complexity check: the filter never runs it. -/
theorem c6_counterexample :
    generate_f3_candidates th_good DEFAULT_CONSTRAINTS s15_lc = .ok [p_lc] ∧
    has_dinucleotide_repeats p_lc.sequence = true ∧
    validate_sequence_composition p_lc.sequence 30 70 4 false true =
      .error .valueError := by
  refine ⟨f3_gen_s15_lc, ?_, ?_⟩
  · rw [p_lc_seq]
    decide
  · have hdin : has_dinucleotide_repeats s15_lc = true := by decide
    rw [p_lc_seq]
    simp only [validate_sequence_composition, s15_lc_gc, hdin,
      Bool.false_and, Bool.and_true, Bool.false_eq_true, if_false, ite_false]
    norm_num

/-- C6 (witness): the retained F3 candidate generated from `s15` under the
`th_good` oracle satisfies every admissibility condition. -/
theorem c6_witness :
    (∃ l, generate_f3_candidates th_good DEFAULT_CONSTRAINTS s15 = .ok l ∧
      p_val ∈ l) ∧
    (validate_sequence_composition p_val.sequence 30 70 4 false false =
        .ok (true, []) ∧
      optimal_tm_min ≤ p_val.tm ∧ p_val.tm ≤ optimal_tm_max ∧
      optimal_gc_min ≤ p_val.gc_content ∧ p_val.gc_content ≤ optimal_gc_max ∧
      hairpin_dg_max ≤ p_val.hairpin_dg) :=
  ⟨⟨[p_val], f3_gen_s15, List.mem_cons_self p_val []⟩,
   c6_retained_candidates_valid th_good DEFAULT_CONSTRAINTS s15 p_val
     (Or.inl ⟨[p_val], f3_gen_s15, List.mem_cons_self p_val []⟩)⟩

theorem generate_f3_ok (th : ThermoCalculator) (c : Constraints)
    (seq : List Char) : ∃ l, generate_f3_candidates th c seq = .ok l := by
  obtain ⟨l, hl⟩ := collect_valid_ok_of_pre_ok (fun w => .ok w) (f3_step th seq)
    (f3_trials c seq.length) [] (fun x _ => ⟨x, rfl⟩)
  exact ⟨(sort_desc (fun p => p.score) l).take 50,
    by simp only [generate_f3_candidates, hl]⟩

theorem generate_fip_ok (th : ThermoCalculator) (c : Constraints)
    (seq : List Char) : ∃ l, generate_fip_candidates th c seq = .ok l := by
  obtain ⟨l, hl⟩ := collect_valid_ok_of_pre_ok (fun pr => .ok pr)
    (fip_step th seq) (fip_region_pairs c seq.length) [] (fun x _ => ⟨x, rfl⟩)
  exact ⟨(sort_desc (fun p => p.score) l).take 50,
    by simp only [generate_fip_candidates, hl]⟩

theorem generate_bip_ok (th : ThermoCalculator) (c : Constraints)
    (seq : List Char) : ∃ l, generate_bip_candidates th c seq = .ok l := by
  obtain ⟨l, hl⟩ := collect_valid_ok_of_pre_ok (fun pr => .ok pr)
    (bip_step th seq) (bip_region_pairs c seq.length) [] (fun x _ => ⟨x, rfl⟩)
  exact ⟨(sort_desc (fun p => p.score) l).take 50,
    by simp only [generate_bip_candidates, hl]⟩

theorem generate_b3_ok (th : ThermoCalculator) (c : Constraints)
    (seq : List Char) (hv : ∀ ch ∈ seq, (complement_map ch.toUpper).isSome) :
    ∃ l, generate_b3_candidates th c seq = .ok l := by
  have hpre : ∀ w ∈ b3_trials c seq.length, ∃ y, b3_pre seq w = .ok y := by
    intro w _
    unfold b3_pre
    rw [reverse_complement_upper (valid_of_mem_pySlice hv)]
    exact ⟨_, rfl⟩
  obtain ⟨l, hl⟩ := collect_valid_ok_of_pre_ok (b3_pre seq) (b3_step th)
    (b3_trials c seq.length) [] hpre
  exact ⟨(sort_desc (fun p => p.score) l).take 50,
    by simp only [generate_b3_candidates, hl]⟩

theorem generate_loop_ok (th : ThermoCalculator) (c : Constraints)
    (ty : PrimerType) (seq : List Char)
    (hv : ∀ ch ∈ seq, (complement_map ch.toUpper).isSome) :
    ∃ l, generate_loop_candidates th c ty seq = .ok l := by
  have hpre : ∀ w ∈ loop_trials c ty seq.length, ∃ y, loop_pre ty seq w = .ok y := by
    intro w _
    unfold loop_pre
    by_cases hty : ty = PrimerType.LF
    · rw [if_pos hty]
      exact ⟨_, rfl⟩
    · rw [if_neg hty, reverse_complement_upper (valid_of_mem_pySlice hv)]
      exact ⟨_, rfl⟩
  obtain ⟨l, hl⟩ := collect_valid_ok_of_pre_ok (loop_pre ty seq) (loop_step th ty)
    (loop_trials c ty seq.length) [] hpre
  exact ⟨(sort_desc (fun p => p.score) l).take 20,
    by simp only [generate_loop_candidates, hl]⟩

theorem run_combination_fails (c : Constraints) (incl : Bool)
    (lfc lbc : List Primer) (f3 b3 fip bip : Primer) :
    run_combination c incl lfc lbc f3 b3 fip bip = .error .typeError := rfl

theorem search_loop_all_fail (c : Constraints) (incl : Bool)
    (lfc lbc : List Primer) (maxC : ℤ) :
    ∀ (ts : List (Primer × Primer × Primer × Primer)) (acc : List LampPrimerSet),
    search_loop c incl lfc lbc maxC ts acc = acc := by
  intro ts
  induction ts with
  | nil => intro acc; rfl
  | cons t ts ih =>
    intro acc
    simp only [search_loop, run_combination_fails]
    exact ih acc

theorem design_raises (th : ThermoCalculator) (c : Constraints)
    (target : Sequence) (incl : Bool) (maxC : ℤ) :
    ∃ stage found required, design_primer_set th c target incl maxC =
      .error (.insufficientCandidates stage found required) := by
  obtain ⟨f3c, hf3⟩ := generate_f3_ok th c target.seq
  obtain ⟨b3c, hb3⟩ := generate_b3_ok th c target.seq target.valid
  obtain ⟨fipc, hfip⟩ := generate_fip_ok th c target.seq
  obtain ⟨bipc, hbip⟩ := generate_bip_ok th c target.seq
  obtain ⟨lfc, hlf⟩ : ∃ l, (if incl then
      generate_loop_candidates th c .LF target.seq else .ok []) = .ok l := by
    cases incl
    · exact ⟨[], rfl⟩
    · simpa using generate_loop_ok th c .LF target.seq target.valid
  obtain ⟨lbc, hlb⟩ : ∃ l, (if incl then
      generate_loop_candidates th c .LB target.seq else .ok []) = .ok l := by
    cases incl
    · exact ⟨[], rfl⟩
    · simpa using generate_loop_ok th c .LB target.seq target.valid
  by_cases h1 : f3c.length < 5
  · exact ⟨"F3", f3c.length, 5,
      by simp only [design_primer_set, hf3, hb3, hfip, hbip, if_pos h1]⟩
  by_cases h2 : b3c.length < 5
  · exact ⟨"B3", b3c.length, 5,
      by simp only [design_primer_set, hf3, hb3, hfip, hbip, if_neg h1,
        if_pos h2]⟩
  by_cases h3 : fipc.length < 5
  · exact ⟨"FIP", fipc.length, 5,
      by simp only [design_primer_set, hf3, hb3, hfip, hbip, if_neg h1,
        if_neg h2, if_pos h3]⟩
  by_cases h4 : bipc.length < 5
  · exact ⟨"BIP", bipc.length, 5,
      by simp only [design_primer_set, hf3, hb3, hfip, hbip, if_neg h1,
        if_neg h2, if_neg h3, if_pos h4]⟩
  refine ⟨"primer_sets", 0, 1, ?_⟩
  simp only [design_primer_set, hf3, hb3, hfip, hbip, if_neg h1, if_neg h2,
    if_neg h3, if_neg h4, hlf, hlb, search_loop_all_fail c incl lfc lbc maxC]
  simp

/-- C1: `design_primer_set` either returns a non-empty list of sets sorted
by overall score descending or raises `InsufficientCandidatesError`, and an
error of any other kind (geometric violations, oracle failures, the
`TypeError` from the geometry call) never reaches the caller — each
combination trial catches everything at its own boundary. -/
theorem c1_design_result (th : ThermoCalculator) (c : Constraints)
    (target : Sequence) (include_loop_primers : Bool) (max_candidates : ℤ) :
    ((∃ stage found required,
        design_primer_set th c target include_loop_primers max_candidates =
          .error (.insufficientCandidates stage found required)) ∨
      (∃ sets,
        design_primer_set th c target include_loop_primers max_candidates =
          .ok sets ∧ sets ≠ [] ∧
        List.Sorted (fun a b : LampPrimerSet => b.overall_score ≤ a.overall_score)
          sets)) ∧
    (∀ e, design_primer_set th c target include_loop_primers max_candidates =
        .error e →
      ∃ stage found required, e = .insufficientCandidates stage found required) := by
  obtain ⟨st, f, r, h⟩ :=
    design_raises th c target include_loop_primers max_candidates
  refine ⟨Or.inl ⟨st, f, r, h⟩, ?_⟩
  intro e he
  rw [h] at he
  injection he with h2
  exact ⟨st, f, r, h2.symm⟩

/-- C1 (witness): on the empty target with an always-failing oracle the
designer raises `InsufficientCandidatesError("F3", 0, 5)`, and that is an
`insufficientCandidates` error. -/
theorem c1_witness :
    design_primer_set th_fail DEFAULT_CONSTRAINTS empty_target false 100 =
      .error (.insufficientCandidates "F3" 0 5) ∧
    ∃ stage found required, (PyErr.insufficientCandidates "F3" 0 5) =
      .insufficientCandidates stage found required := by
  have heval :
      design_primer_set th_fail DEFAULT_CONSTRAINTS empty_target false 100 =
        .error (.insufficientCandidates "F3" 0 5) := by decide
  exact ⟨heval,
    (c1_design_result th_fail DEFAULT_CONSTRAINTS empty_target false 100).2
      _ heval⟩

/-- C4: if any of the four mandatory roles yields fewer than 5 candidates,
`design_primer_set` raises `InsufficientCandidatesError` carrying one of
the deficient stage names, its found count, and the required count 5 —
before any combination is assembled — and an `insufficientCandidates`
error is the only kind the designer can ever propagate. -/
theorem c4_min_candidates (th : ThermoCalculator) (c : Constraints)
    (target : Sequence) (incl : Bool) (maxC : ℤ)
    (f3c b3c fipc bipc : List Primer)
    (hf3 : generate_f3_candidates th c target.seq = .ok f3c)
    (hb3 : generate_b3_candidates th c target.seq = .ok b3c)
    (hfip : generate_fip_candidates th c target.seq = .ok fipc)
    (hbip : generate_bip_candidates th c target.seq = .ok bipc)
    (hdef : f3c.length < 5 ∨ b3c.length < 5 ∨ fipc.length < 5 ∨
      bipc.length < 5) :
    (∃ stage found, design_primer_set th c target incl maxC =
        .error (.insufficientCandidates stage found 5) ∧ found < 5 ∧
      ((stage = "F3" ∧ found = f3c.length) ∨
       (stage = "B3" ∧ found = b3c.length) ∨
       (stage = "FIP" ∧ found = fipc.length) ∨
       (stage = "BIP" ∧ found = bipc.length))) ∧
    (∀ e, design_primer_set th c target incl maxC = .error e →
      ∃ stage found required, e = .insufficientCandidates stage found required) := by
  constructor
  · by_cases h1 : f3c.length < 5
    · exact ⟨"F3", f3c.length,
        by simp only [design_primer_set, hf3, hb3, hfip, hbip, if_pos h1],
        h1, Or.inl ⟨rfl, rfl⟩⟩
    by_cases h2 : b3c.length < 5
    · exact ⟨"B3", b3c.length,
        by simp only [design_primer_set, hf3, hb3, hfip, hbip, if_neg h1,
          if_pos h2],
        h2, Or.inr (Or.inl ⟨rfl, rfl⟩)⟩
    by_cases h3 : fipc.length < 5
    · exact ⟨"FIP", fipc.length,
        by simp only [design_primer_set, hf3, hb3, hfip, hbip, if_neg h1,
          if_neg h2, if_pos h3],
        h3, Or.inr (Or.inr (Or.inl ⟨rfl, rfl⟩))⟩
    by_cases h4 : bipc.length < 5
    · exact ⟨"BIP", bipc.length,
        by simp only [design_primer_set, hf3, hb3, hfip, hbip, if_neg h1,
          if_neg h2, if_neg h3, if_pos h4],
        h4, Or.inr (Or.inr (Or.inr ⟨rfl, rfl⟩))⟩
    rcases hdef with h | h | h | h
    · exact absurd h h1
    · exact absurd h h2
    · exact absurd h h3
    · exact absurd h h4
  · intro e he
    obtain ⟨st, f, r, h⟩ := design_raises th c target incl maxC
    rw [h] at he
    injection he with h2
    exact ⟨st, f, r, h2.symm⟩

/-- C4 (witness): on the empty target every role generates 0 < 5
candidates, and the designer raises with stage "F3" and found count 0. -/
theorem c4_witness :
    generate_f3_candidates th_fail DEFAULT_CONSTRAINTS empty_target.seq =
      .ok [] ∧
    ((∃ stage found,
        design_primer_set th_fail DEFAULT_CONSTRAINTS empty_target false 100 =
          .error (.insufficientCandidates stage found 5) ∧ found < 5 ∧
        ((stage = "F3" ∧ found = ([] : List Primer).length) ∨
         (stage = "B3" ∧ found = ([] : List Primer).length) ∨
         (stage = "FIP" ∧ found = ([] : List Primer).length) ∨
         (stage = "BIP" ∧ found = ([] : List Primer).length))) ∧
      (∀ e, design_primer_set th_fail DEFAULT_CONSTRAINTS empty_target false 100 =
          .error e →
        ∃ stage found required, e = .insufficientCandidates stage found required)) :=
  ⟨by decide,
   c4_min_candidates th_fail DEFAULT_CONSTRAINTS empty_target false 100
     [] [] [] [] (by decide) (by decide) (by decide) (by decide)
     (Or.inl (by decide))⟩

/-- C2 (code bug): the geometric validator actually run by the search
raises `TypeError` on every assembled set — here on the specification
scenario with F3 ending at 30 and FIP starting at 25 — because
`_validate_primer_set_geometry` passes a regions dictionary and a
constraints dictionary to the eight-positional-parameter
`validate_primer_geometry`.  The named rule `F3_FIP_overlap` with its
expected range and observed value only exists in that eight-parameter
function, which the search never reaches. -/
theorem c2_geometry_validator_bug :
    validate_primer_set_geometry DEFAULT_CONSTRAINTS ps_overlap =
      .error .typeError ∧
    validate_primer_geometry 0 30 180 200 25 60 120 155 =
      .error (.geometricConstraint "F3_FIP_overlap" "no overlap"
        "F3 ends at 30, FIP starts at 25") := by
  exact ⟨rfl, by decide⟩

/-- C3 (code bug): a set whose sub-regions give the amplicon size
100 - 49 - 1 = 50, outside the configured 120-200: the validator the search
runs raises `TypeError` (so no amplicon is ever computed, attached, or
reported as a `GeometricConstraintError`), while the dictionary-based
`validate_primer_geometry_full` — the function the call site evidently
intended — would raise exactly the claimed structured error. -/
theorem c3_amplicon_bug :
    validate_primer_set_geometry DEFAULT_CONSTRAINTS ps_small_amplicon =
      .error .typeError ∧
    (primer_set_regions ps_small_amplicon).F2 = some (30, 49) ∧
    (primer_set_regions ps_small_amplicon).B2 = some (100, 119) ∧
    validate_primer_geometry_full (primer_set_regions ps_small_amplicon)
        DEFAULT_CONSTRAINTS =
      .error (.geometricConstraint "F2_B2_amplicon" "120-200" "50") := by
  exact ⟨rfl, by decide, by decide, by decide⟩
